import Mathlib

/-!
Verification development for the brand-monitoring analytics core of the
ai-monitor repository.  The TypeScript sources are shallowly embedded:
pure functions become Lean functions, JavaScript numbers become `Rat`
(exact arithmetic; the float epsilon comparison of the source is kept
verbatim), counts become `Nat`, optional fields become `Option`, and the
impure timestamp calls (`serverTimestamp`, `new Date()`) become explicit
parameters.  `Array.prototype.sort` is modelled as a stable insertion
sort (`List.insertionSort` with the comparator relation `cmp a b <= 0`);
ECMAScript leaves the order implementation-defined when a comparator is
inconsistent, and every concrete input used below lies in the consistent
region where all stable sorts agree.
-/

namespace AIMonitor

/-! ## String helpers (JS semantics, ASCII scope)

`toLowerCase`, `includes` and regex match counting from
src/components/features/BrandMentionCounter.tsx.  Lowercasing is modelled
for the ASCII range (all concrete inputs below are ASCII). -/

/-- JS `String.prototype.toLowerCase`, restricted to ASCII case folding. -/
def jsToLower (s : String) : String :=
  String.mk (s.data.map Char.toLower)

/-- Infix test on character lists: does `pat` occur inside `l`? -/
def isInfixList (pat : List Char) : List Char → Bool
  | [] => pat.isPrefixOf []
  | c :: rest => pat.isPrefixOf (c :: rest) || isInfixList pat rest

/-- JS `String.prototype.includes`. -/
def jsIncludes (s sub : String) : Bool :=
  isInfixList sub.data s.data

/-- Counts leftmost non-overlapping occurrences of `pat` in `t`, the way a
global regex match of an escaped literal pattern does.  The fuel argument
makes the recursion structural; `t.length` fuel always suffices because
every step consumes at least one character when `pat` is nonempty (the
callers guard the empty pattern away). -/
def scanCountFuel (pat : List Char) : Nat → List Char → Nat
  | 0, _ => 0
  | _ + 1, [] => 0
  | fuel + 1, c :: rest =>
    if pat.isPrefixOf (c :: rest) then
      1 + scanCountFuel pat fuel ((c :: rest).drop pat.length)
    else
      scanCountFuel pat fuel rest

def scanCount (t pat : List Char) : Nat :=
  scanCountFuel pat t.length t

/-! ## Brand mention analysis (src/components/features/BrandMentionCounter.tsx) -/

/-- A citation record: `{url, text, source?}`. -/
structure Citation where
  url : String
  text : String
  source : Option String
deriving DecidableEq

/-- `isBrandMentioned`: case-insensitive substring test, false on empty
text or empty brand name. -/
def isBrandMentioned (text brandName : String) : Bool :=
  if text = "" || brandName = "" then false
  else jsIncludes (jsToLower text) (jsToLower brandName)

/-- `isDomainCited`: case-insensitive substring test for the domain. -/
def isDomainCited (text brandDomain : String) : Bool :=
  if text = "" || brandDomain = "" then false
  else jsIncludes (jsToLower text) (jsToLower brandDomain)

/-- `countBrandMentions`: non-overlapping case-insensitive occurrence
count of the escaped brand name, via a global regex over the text. -/
def countBrandMentions (text brandName : String) : Nat :=
  if text = "" || brandName = "" then 0
  else scanCount (jsToLower text).data (jsToLower brandName).data

/-- `countDomainCitations`: citations whose lowercased url contains the
lowercased domain. -/
def countDomainCitations (citations : List Citation) (brandDomain : String) : Nat :=
  if brandDomain = "" then 0
  else (citations.filter (fun c => jsIncludes (jsToLower c.url) (jsToLower brandDomain))).length

/-- Input for the chatgpt/perplexity branches of `analyzeBrandMentions`:
`{response: string, citations?: Citation[]}`. -/
structure ProviderInput where
  response : String
  citations : Option (List Citation)

/-- Input for the googleAI branch: `{aiOverview?: string, citations?: Citation[]}`. -/
structure GoogleInput where
  aiOverview : Option String
  citations : Option (List Citation)

/-- The `queryResults` argument of `analyzeBrandMentions`. -/
structure AnalyzeInputs where
  chatgpt : Option ProviderInput
  googleAI : Option GoogleInput
  perplexity : Option ProviderInput

structure BrandAnalysisResult where
  provider : String
  brandMentioned : Bool
  domainCited : Bool
  citationCount : Nat
  citations : List Citation
  brandMentionCount : Nat
  domainCitationCount : Nat
deriving DecidableEq

structure AnalysisResults where
  chatgpt : Option BrandAnalysisResult
  google : Option BrandAnalysisResult
  perplexity : Option BrandAnalysisResult
deriving DecidableEq

structure AnalysisTotals where
  totalCitations : Nat
  totalBrandMentions : Nat
  totalDomainCitations : Nat
  providersWithBrandMention : Nat
  providersWithDomainCitation : Nat
deriving DecidableEq

structure BrandMentionAnalysis where
  brandName : String
  brandDomain : String
  results : AnalysisResults
  totals : AnalysisTotals
deriving DecidableEq

/-- The chatgpt and perplexity branches: the guard is the truthiness of
`queryResults.<provider>?.response`, so an empty response produces no
result. -/
def analyzeTextProvider (label brandName brandDomain : String) :
    Option ProviderInput → Option BrandAnalysisResult
  | none => none
  | some inp =>
    if inp.response = "" then none
    else
      let citations := inp.citations.getD []
      some {
        provider := label
        brandMentioned := isBrandMentioned inp.response brandName
        domainCited := isDomainCited inp.response brandDomain
        citationCount := citations.length
        citations := citations
        brandMentionCount := countBrandMentions inp.response brandName
        domainCitationCount := countDomainCitations citations brandDomain }

/-- The googleAI branch: guarded only by the presence of the object, with
`aiOverview || ''` as analysed text. -/
def analyzeGoogleProvider (brandName brandDomain : String) :
    Option GoogleInput → Option BrandAnalysisResult
  | none => none
  | some g =>
    let t := g.aiOverview.getD ""
    let citations := g.citations.getD []
    some {
      provider := "google"
      brandMentioned := isBrandMentioned t brandName
      domainCited := isDomainCited t brandDomain
      citationCount := citations.length
      citations := citations
      brandMentionCount := countBrandMentions t brandName
      domainCitationCount := countDomainCitations citations brandDomain }

/-- The present per-provider results in insertion order (chatgpt, google,
perplexity), as produced by `Object.values(results)`. -/
def presentResults (r : AnalysisResults) : List BrandAnalysisResult :=
  [r.chatgpt, r.google, r.perplexity].filterMap id

/-- `analyzeBrandMentions` from BrandMentionCounter.tsx. -/
def analyzeBrandMentions (brandName brandDomain : String) (q : AnalyzeInputs) :
    BrandMentionAnalysis :=
  let results : AnalysisResults := {
    chatgpt := analyzeTextProvider "chatgpt" brandName brandDomain q.chatgpt
    google := analyzeGoogleProvider brandName brandDomain q.googleAI
    perplexity := analyzeTextProvider "perplexity" brandName brandDomain q.perplexity }
  let allResults := presentResults results
  { brandName := brandName
    brandDomain := brandDomain
    results := results
    totals := {
      totalCitations := (allResults.map (·.citationCount)).sum
      totalBrandMentions := (allResults.map (·.brandMentionCount)).sum
      totalDomainCitations := (allResults.map (·.domainCitationCount)).sum
      providersWithBrandMention := (allResults.filter (·.brandMentioned)).length
      providersWithDomainCitation := (allResults.filter (·.domainCited)).length } }

/-! ## Cumulative analytics fold (calculateCumulativeAnalytics in the
brandAnalytics firestore module) -/

/-- One provider entry of a stored `QueryProcessingResult.results` as the
fold reads it: the response text (chatgpt/perplexity), and an optional
response time. -/
structure TextProviderResult where
  response : Option String
  responseTime : Option ℚ

/-- The googleAI entry: `aiOverview` text and response time. -/
structure GoogleAIResult where
  aiOverview : Option String
  responseTime : Option ℚ

structure QueryResultSet where
  chatgpt : Option TextProviderResult
  googleAI : Option GoogleAIResult
  perplexity : Option TextProviderResult

/-- A stored query processing result, restricted to the fields the
analytics fold reads. -/
structure QueryProcessingResult where
  date : String
  processingSessionId : String
  results : QueryResultSet

/-- The three citation extractors the fold imports
(`extractChatGPTCitations`, `extractGoogleAIOverviewCitations`,
`extractPerplexityCitations` live in renderer modules outside the
analytics file); the fold is parametric in them. -/
structure Extractors where
  chatgpt : String → List Citation
  googleAI : String → GoogleAIResult → List Citation
  perplexity : String → TextProviderResult → List Citation

/-- Per-provider running totals of the fold (the `providerStats` object,
including the intermediate `totalResponseTime`). -/
structure PStat where
  queriesProcessed : Nat
  brandMentions : Nat
  citations : Nat
  domainCitations : Nat
  totalResponseTime : ℚ
deriving DecidableEq

structure AllStats where
  chatgpt : PStat
  google : PStat
  perplexity : PStat
deriving DecidableEq

/-- The accumulator of the fold over query results. -/
structure FoldState where
  stats : AllStats
  totalBrandMentions : Nat
  totalCitations : Nat
  totalDomainCitations : Nat
  totalProvidersWithBrandMentions : Nat
  totalProviders : Nat
deriving DecidableEq

/-- `if (responseTime) { totalResponseTime += responseTime }` : a falsy
(absent or zero) response time is not added. -/
def addResponseTime (t : ℚ) : Option ℚ → ℚ
  | none => t
  | some r => if r = 0 then t else t + r

def updatePStat (st : PStat) (r : BrandAnalysisResult) (rt : Option ℚ) : PStat :=
  { queriesProcessed := st.queriesProcessed + 1
    brandMentions := st.brandMentions + r.brandMentionCount
    citations := st.citations + r.citationCount
    domainCitations := st.domainCitations + r.domainCitationCount
    totalResponseTime := addResponseTime st.totalResponseTime rt }

/-- The extraction and analysis part of one `forEach` iteration of
`calculateCumulativeAnalytics`: extract citations per provider, then run
`analyzeBrandMentions` on this query. -/
def queryAnalysis (E : Extractors) (brandName brandDomain : String)
    (qr : QueryProcessingResult) : BrandMentionAnalysis :=
  let chatgptCitations := match qr.results.chatgpt with
    | some c => E.chatgpt (c.response.getD "")
    | none => []
  let googleCitations := match qr.results.googleAI with
    | some g => E.googleAI (g.aiOverview.getD "") g
    | none => []
  let perplexityCitations := match qr.results.perplexity with
    | some p => E.perplexity (p.response.getD "") p
    | none => []
  analyzeBrandMentions brandName brandDomain {
    chatgpt := qr.results.chatgpt.map fun c =>
      { response := c.response.getD "", citations := some chatgptCitations }
    googleAI := qr.results.googleAI.map fun g =>
      { aiOverview := some (g.aiOverview.getD ""), citations := some googleCitations }
    perplexity := qr.results.perplexity.map fun p =>
      { response := p.response.getD "", citations := some perplexityCitations } }

/-- The accumulation part of one `forEach` iteration: totals and
per-provider stats. -/
def foldStep (E : Extractors) (brandName brandDomain : String)
    (s : FoldState) (qr : QueryProcessingResult) : FoldState :=
  let analysis := queryAnalysis E brandName brandDomain qr
  let s1 : FoldState := { s with
    totalBrandMentions := s.totalBrandMentions + analysis.totals.totalBrandMentions
    totalCitations := s.totalCitations + analysis.totals.totalCitations
    totalDomainCitations := s.totalDomainCitations + analysis.totals.totalDomainCitations
    totalProvidersWithBrandMentions :=
      s.totalProvidersWithBrandMentions + analysis.totals.providersWithBrandMention
    totalProviders := s.totalProviders + (presentResults analysis.results).length }
  let st := s1.stats
  let st1 := match analysis.results.chatgpt with
    | some r => { st with chatgpt := updatePStat st.chatgpt r (qr.results.chatgpt.bind (·.responseTime)) }
    | none => st
  let st2 := match analysis.results.google with
    | some r => { st1 with google := updatePStat st1.google r (qr.results.googleAI.bind (·.responseTime)) }
    | none => st1
  let st3 := match analysis.results.perplexity with
    | some r => { st2 with perplexity := updatePStat st2.perplexity r (qr.results.perplexity.bind (·.responseTime)) }
    | none => st2
  { s1 with stats := st3 }

def initPStat : PStat := { queriesProcessed := 0, brandMentions := 0, citations := 0, domainCitations := 0, totalResponseTime := 0 }

def initFoldState : FoldState :=
  { stats := { chatgpt := initPStat, google := initPStat, perplexity := initPStat }
    totalBrandMentions := 0, totalCitations := 0, totalDomainCitations := 0
    totalProvidersWithBrandMentions := 0, totalProviders := 0 }

/-- The whole `forEach` loop of `calculateCumulativeAnalytics`. -/
def accumStats (E : Extractors) (brandName brandDomain : String)
    (queryResults : List QueryProcessingResult) : FoldState :=
  queryResults.foldl (foldStep E brandName brandDomain) initFoldState

/-- One entry of the `providerRankings` array. -/
structure Ranking where
  provider : String
  brandMentions : Nat
  domainCitationsRatio : ℚ
  totalCitations : Nat
  domainCitations : Nat
deriving DecidableEq

def mkRanking (provider : String) (st : PStat) : Ranking :=
  { provider := provider
    brandMentions := st.brandMentions
    domainCitationsRatio := if 0 < st.citations then (st.domainCitations : ℚ) / (st.citations : ℚ) else 0
    totalCitations := st.citations
    domainCitations := st.domainCitations }

/-- `Object.entries(providerStats)` in insertion order. -/
def providerEntries (a : AllStats) : List (String × PStat) :=
  [("chatgpt", a.chatgpt), ("google", a.google), ("perplexity", a.perplexity)]

/-- The ranking comparator: brand mentions desc, then domain-citation
ratio desc with a 0.001 epsilon, then total citations desc.  The JS
comparator returns a number; a negative value puts `a` first. -/
def providerCmp (a b : Ranking) : ℚ :=
  if a.brandMentions ≠ b.brandMentions then (b.brandMentions : ℚ) - (a.brandMentions : ℚ)
  else if 1/1000 < |a.domainCitationsRatio - b.domainCitationsRatio| then
    b.domainCitationsRatio - a.domainCitationsRatio
  else (b.totalCitations : ℚ) - (a.totalCitations : ℚ)

/-- The descending ranking order as the specification words it: more
brand mentions first; on equal mention counts a domain-citation ratio
larger by more than the 0.001 epsilon first; on an epsilon tie, more
total citations first.  `rankLE a b` says `a` may come before `b`. -/
def rankLE (a b : Ranking) : Prop :=
  b.brandMentions < a.brandMentions ∨
  (a.brandMentions = b.brandMentions ∧
    (1/1000 < a.domainCitationsRatio - b.domainCitationsRatio ∨
     (|a.domainCitationsRatio - b.domainCitationsRatio| ≤ 1/1000 ∧
      b.totalCitations ≤ a.totalCitations)))

/-- The sorted `providerRankings` array: providers that processed at
least one query, stably sorted by the comparator.  (The source builds
this list twice with identical code, once for the top-performer
selection and once for the ranking details.) -/
def providerRankings (a : AllStats) : List Ranking :=
  List.insertionSort (fun x y => providerCmp x y ≤ 0)
    (((providerEntries a).filter (fun e => 0 < e.2.queriesProcessed)).map
      (fun e => mkRanking e.1 e.2))

/-- The tie condition used to collect `tiedProviders` around the top
entry. -/
def tieCond (top p : Ranking) : Prop :=
  p.brandMentions = top.brandMentions ∧
  |p.domainCitationsRatio - top.domainCitationsRatio| < 1/1000 ∧
  (0 < p.brandMentions ∨ 0 < p.domainCitations)

instance (top p : Ranking) : Decidable (tieCond top p) := by
  unfold tieCond; infer_instance

/-- JS `Array.prototype.join(sep)`. -/
def jsJoin (sep : String) : List String → String
  | [] => ""
  | [x] => x
  | x :: y :: xs => x ++ sep ++ jsJoin sep (y :: xs)

/-- The top-performer selection of `calculateCumulativeAnalytics`
(lines computing `topPerformingProvider` and `topProviders`): sentinel
when there is no brand performance at all, when no provider processed a
query, or when the top-ranked entry has no performance; otherwise the
tie group around the top entry. -/
def topSelection (totalBrandMentions totalDomainCitations : Nat)
    (rankings : List Ranking) : String × List String :=
  if 0 < totalBrandMentions ∨ 0 < totalDomainCitations then
    match rankings with
    | [] => ("none", [])
    | top :: rest =>
      if 0 < top.brandMentions ∨ 0 < top.domainCitations then
        let tied := (top :: rest).filter (fun p => decide (tieCond top p))
        if 1 < tied.length then
          (jsJoin " & " (tied.map (·.provider)), tied.map (·.provider))
        else (top.provider, [top.provider])
      else ("none", [])
  else ("none", [])

/-- JS `Math.round`: round half towards positive infinity. -/
def jsRound (q : ℚ) : ℤ := ⌊q + 1/2⌋

/-- `Math.round(x * 100) / 100`. -/
def round2 (q : ℚ) : ℚ := (jsRound (q * 100) : ℚ) / 100

/-- `Math.round(ratio * 10000) / 100`: ratio as a percentage with two
decimal places. -/
def roundRatioPercent (q : ℚ) : ℚ := (jsRound (q * 10000) : ℚ) / 100

structure RankDetail where
  rank : Nat
  brandMentions : Nat
  domainCitationsRatio : ℚ
  totalCitations : Nat
deriving DecidableEq

/-- The `providerRankingDetails` map, in ranking order. -/
def rankingDetails (rankings : List Ranking) : List (String × RankDetail) :=
  rankings.enum.map fun e =>
    (e.2.provider,
     { rank := e.1 + 1
       brandMentions := e.2.brandMentions
       domainCitationsRatio := roundRatioPercent e.2.domainCitationsRatio
       totalCitations := e.2.totalCitations })

/-- Final per-provider stats: `totalResponseTime` replaced by the
average (absent when no query was processed). -/
structure FinalPStat where
  queriesProcessed : Nat
  brandMentions : Nat
  citations : Nat
  domainCitations : Nat
  averageResponseTime : Option ℚ
deriving DecidableEq

structure FinalAllStats where
  chatgpt : FinalPStat
  google : FinalPStat
  perplexity : FinalPStat
deriving DecidableEq

def finalizePStat (st : PStat) : FinalPStat :=
  { queriesProcessed := st.queriesProcessed
    brandMentions := st.brandMentions
    citations := st.citations
    domainCitations := st.domainCitations
    averageResponseTime :=
      if 0 < st.queriesProcessed then some (st.totalResponseTime / (st.queriesProcessed : ℚ))
      else none }

structure Insights where
  topPerformingProvider : String
  topProviders : List String
  brandVisibilityTrend : String
  averageBrandMentionsPerQuery : ℚ
  averageCitationsPerQuery : ℚ
  competitorMentionsDetected : Nat
  providerRankingDetails : List (String × RankDetail)
deriving DecidableEq

structure BrandAnalyticsData where
  userId : String
  brandId : String
  brandName : String
  brandDomain : String
  processingSessionId : String
  processingSessionTimestamp : String
  totalQueriesProcessed : Nat
  totalBrandMentions : Nat
  brandVisibilityScore : ℚ
  totalCitations : Nat
  totalDomainCitations : Nat
  providerStats : FinalAllStats
  insights : Insights
  lastUpdated : ℤ
  createdAt : ℤ
deriving DecidableEq

/-- `calculateCumulativeAnalytics`.  The two `serverTimestamp()` calls
are modelled by the `now` parameter. -/
def calculateCumulativeAnalytics (E : Extractors)
    (userId brandId brandName brandDomain processingSessionId processingSessionTimestamp : String)
    (queryResults : List QueryProcessingResult) (now : ℤ) : BrandAnalyticsData :=
  let S := accumStats E brandName brandDomain queryResults
  let brandVisibilityScore : ℚ :=
    if 0 < S.totalProviders then
      ((S.totalProvidersWithBrandMentions : ℚ) / (S.totalProviders : ℚ)) * 100
    else 0
  let averageBrandMentionsPerQuery : ℚ :=
    if 0 < queryResults.length then (S.totalBrandMentions : ℚ) / (queryResults.length : ℚ) else 0
  let averageCitationsPerQuery : ℚ :=
    if 0 < queryResults.length then (S.totalCitations : ℚ) / (queryResults.length : ℚ) else 0
  let rankings := providerRankings S.stats
  let top := topSelection S.totalBrandMentions S.totalDomainCitations rankings
  { userId := userId
    brandId := brandId
    brandName := brandName
    brandDomain := brandDomain
    processingSessionId := processingSessionId
    processingSessionTimestamp := processingSessionTimestamp
    totalQueriesProcessed := queryResults.length
    totalBrandMentions := S.totalBrandMentions
    brandVisibilityScore := round2 brandVisibilityScore
    totalCitations := S.totalCitations
    totalDomainCitations := S.totalDomainCitations
    providerStats := {
      chatgpt := finalizePStat S.stats.chatgpt
      google := finalizePStat S.stats.google
      perplexity := finalizePStat S.stats.perplexity }
    insights := {
      topPerformingProvider := top.1
      topProviders := top.2
      brandVisibilityTrend := "stable"
      averageBrandMentionsPerQuery := round2 averageBrandMentionsPerQuery
      averageCitationsPerQuery := round2 averageCitationsPerQuery
      competitorMentionsDetected := 0
      providerRankingDetails := rankingDetails rankings }
    lastUpdated := now
    createdAt := now }

/-! ## Lifetime analytics (calculateLifetimeBrandAnalytics, pure tail)

The gathering phase (Firestore reads, Cloud Storage retrieval, legacy
conversion, session-id dedup) is I/O; `lifetimeFromGathered` embeds the
computation performed once `allQueryResults` and the session count have
been gathered.  `new Date(q.date).getTime()` is modelled by the
`parseDate` parameter (`none` for an invalid date), and the first/last
query timestamps are kept as parsed epoch values. -/

structure LifetimeInsights where
  topPerformingProvider : String
  topProviders : List String
  averageBrandMentionsPerQuery : ℚ
  averageCitationsPerQuery : ℚ
  firstQueryProcessed : Option ℤ
  lastQueryProcessed : Option ℤ
  providerRankingDetails : List (String × RankDetail)
deriving DecidableEq

structure LifetimeBrandAnalytics where
  userId : String
  brandId : String
  brandName : String
  brandDomain : String
  totalQueriesProcessed : Nat
  totalProcessingSessions : Nat
  totalBrandMentions : Nat
  brandVisibilityScore : ℚ
  totalCitations : Nat
  totalDomainCitations : Nat
  providerStats : FinalAllStats
  insights : LifetimeInsights
  calculatedAt : ℤ
deriving DecidableEq

def emptyFinalPStat : FinalPStat :=
  { queriesProcessed := 0, brandMentions := 0, citations := 0, domainCitations := 0, averageResponseTime := none }

def lifetimeFromGathered (E : Extractors) (parseDate : String → Option ℤ)
    (userId brandId brandName brandDomain : String)
    (allQueryResults : List QueryProcessingResult) (totalProcessingSessions : Nat)
    (nowIso : String) (now : ℤ) : LifetimeBrandAnalytics :=
  match allQueryResults with
  | [] =>
    { userId := userId, brandId := brandId, brandName := brandName, brandDomain := brandDomain
      totalQueriesProcessed := 0, totalProcessingSessions := 0, totalBrandMentions := 0
      brandVisibilityScore := 0, totalCitations := 0, totalDomainCitations := 0
      providerStats := { chatgpt := emptyFinalPStat, google := emptyFinalPStat, perplexity := emptyFinalPStat }
      insights := { topPerformingProvider := "none", topProviders := []
                    averageBrandMentionsPerQuery := 0, averageCitationsPerQuery := 0
                    firstQueryProcessed := none, lastQueryProcessed := none
                    providerRankingDetails := [] }
      calculatedAt := now }
  | q :: qs =>
    let sessionAnalytics := calculateCumulativeAnalytics E userId brandId brandName brandDomain
      "lifetime_analytics" nowIso (q :: qs) now
    let queryDates := List.insertionSort (fun a b : ℤ => a - b ≤ 0)
      ((q :: qs).filterMap (fun r => parseDate r.date))
    { userId := userId, brandId := brandId, brandName := brandName, brandDomain := brandDomain
      totalQueriesProcessed := (q :: qs).length
      totalProcessingSessions := totalProcessingSessions
      totalBrandMentions := sessionAnalytics.totalBrandMentions
      brandVisibilityScore := sessionAnalytics.brandVisibilityScore
      totalCitations := sessionAnalytics.totalCitations
      totalDomainCitations := sessionAnalytics.totalDomainCitations
      providerStats := sessionAnalytics.providerStats
      insights := { topPerformingProvider := sessionAnalytics.insights.topPerformingProvider
                    topProviders := sessionAnalytics.insights.topProviders
                    averageBrandMentionsPerQuery := sessionAnalytics.insights.averageBrandMentionsPerQuery
                    averageCitationsPerQuery := sessionAnalytics.insights.averageCitationsPerQuery
                    firstQueryProcessed := queryDates.head?
                    lastQueryProcessed := queryDates.getLast?
                    providerRankingDetails := sessionAnalytics.insights.providerRankingDetails }
      calculatedAt := now }

/-! ## Timestamp-free projections, for the idempotence property -/

structure BrandAnalyticsCore where
  userId : String
  brandId : String
  brandName : String
  brandDomain : String
  processingSessionId : String
  processingSessionTimestamp : String
  totalQueriesProcessed : Nat
  totalBrandMentions : Nat
  brandVisibilityScore : ℚ
  totalCitations : Nat
  totalDomainCitations : Nat
  providerStats : FinalAllStats
  insights : Insights
deriving DecidableEq

/-- All fields of a `BrandAnalyticsData` except `lastUpdated` and
`createdAt`. -/
def coreOf (a : BrandAnalyticsData) : BrandAnalyticsCore :=
  { userId := a.userId, brandId := a.brandId, brandName := a.brandName, brandDomain := a.brandDomain
    processingSessionId := a.processingSessionId
    processingSessionTimestamp := a.processingSessionTimestamp
    totalQueriesProcessed := a.totalQueriesProcessed
    totalBrandMentions := a.totalBrandMentions
    brandVisibilityScore := a.brandVisibilityScore
    totalCitations := a.totalCitations
    totalDomainCitations := a.totalDomainCitations
    providerStats := a.providerStats
    insights := a.insights }

structure LifetimeCore where
  userId : String
  brandId : String
  brandName : String
  brandDomain : String
  totalQueriesProcessed : Nat
  totalProcessingSessions : Nat
  totalBrandMentions : Nat
  brandVisibilityScore : ℚ
  totalCitations : Nat
  totalDomainCitations : Nat
  providerStats : FinalAllStats
  insights : LifetimeInsights
deriving DecidableEq

/-- All fields of a `LifetimeBrandAnalytics` except `calculatedAt`. -/
def lifetimeCoreOf (a : LifetimeBrandAnalytics) : LifetimeCore :=
  { userId := a.userId, brandId := a.brandId, brandName := a.brandName, brandDomain := a.brandDomain
    totalQueriesProcessed := a.totalQueriesProcessed
    totalProcessingSessions := a.totalProcessingSessions
    totalBrandMentions := a.totalBrandMentions
    brandVisibilityScore := a.brandVisibilityScore
    totalCitations := a.totalCitations
    totalDomainCitations := a.totalDomainCitations
    providerStats := a.providerStats
    insights := a.insights }

/-! ## Provider Manager (ProviderManager.executeRequest and helpers)

Adapters are values of an `Adapter` capability; a thrown adapter
exception is an `Except.error`.  `Promise.allSettled` over the mapped
array preserves array order, so the concurrent fan-out is embedded as a
map over the requested provider names; the normalized `data` payload is
reduced to its `content` string, the only part the aggregation reads. -/

structure APIRequest where
  id : String
  prompt : String
  providers : List String
  userId : String

structure APIResponse where
  providerId : String
  requestId : String
  status : String
  data : Option String
  error : Option String
  responseTime : ℚ
  cost : ℚ
  timestamp : ℤ
deriving DecidableEq

/-- The provider-specific request shapes built by
`transformRequestForProvider`. -/
inductive TransformedRequest where
  | azureOpenAI (model : String) (userPrompt : String) (temperature : ℚ) (maxTokens : Nat)
  | chatgptSearch (input : String) (model : String) (temperature : ℚ)
  | perplexityReq (prompt : String) (model : String) (temperature : ℚ) (maxTokens : Nat)
  | googleAIOverview (keyword : String) (locationCode : Nat) (languageCode : String)
      (device : String) (os : String) (depth : Nat) (groupOrganicResults : Bool)
      (loadAsyncAIOverview : Bool) (peopleAlsoAskClickDepth : Nat)
  | googleGemini (text : String) (temperature : ℚ) (maxOutputTokens : Nat)
  | generic (prompt : String)

def transformRequestForProvider (request : APIRequest) (providerName : String) :
    TransformedRequest :=
  if providerName = "azure-openai" then .azureOpenAI "gpt-4" request.prompt (7/10) 1000
  else if providerName = "chatgptsearch" then .chatgptSearch request.prompt "gpt-4.1" (7/10)
  else if providerName = "perplexity" then .perplexityReq request.prompt "sonar-pro" (7/10) 1000
  else if providerName = "google-ai-overview" then
    .googleAIOverview request.prompt 2840 "en" "desktop" "windows" 10 true true 4
  else if providerName = "google-gemini" then .googleGemini request.prompt (7/10) 1000
  else .generic request.prompt

/-- An adapter of the registry: its name and its `execute` behaviour
(`Except.error` models a thrown exception). -/
structure Adapter where
  name : String
  execute : TransformedRequest → Except String APIResponse

/-- `this.providers.get(name)` over the registry. -/
def lookupProvider (providers : List (String × Adapter)) (n : String) : Option Adapter :=
  (providers.find? (fun e => e.1 == n)).map (·.2)

/-- The immediate entry for an unknown provider name. -/
def notFoundEntry (request : APIRequest) (n : String) (now : ℤ) : APIResponse :=
  { providerId := n, requestId := request.id, status := "error", data := none
    error := some "Provider not found", responseTime := 0, cost := 0, timestamp := now }

/-- The entry produced when an adapter throws. -/
def thrownEntry (request : APIRequest) (n msg : String) (now : ℤ) : APIResponse :=
  { providerId := n, requestId := request.id, status := "error", data := none
    error := some msg, responseTime := 0, cost := 0, timestamp := now }

/-- One arrow of the parallel map in `processRequest`: registry miss,
thrown adapter, or the adapter response. -/
def runProvider (providers : List (String × Adapter)) (request : APIRequest) (now : ℤ)
    (n : String) : APIResponse :=
  match lookupProvider providers n with
  | none => notFoundEntry request n now
  | some ad =>
    match ad.execute (transformRequestForProvider request ad.name) with
    | .ok r => r
    | .error msg => thrownEntry request n msg now

inductive AggregatedData where
  | allFailed
  | aggregated (responses : List (String × String × ℚ)) (consensus : String)
      (averageResponseTime : ℚ)
deriving DecidableEq

/-- `baseConfidence - min(responseTime/10000, 0.2)`, clamped at 0. -/
def calculateConfidence (r : APIResponse) : ℚ :=
  max 0 ((8/10) - min (r.responseTime / 10000) (2/10))

def aggregateResults (results : List APIResponse) : AggregatedData :=
  let successfulResults := results.filter (fun r => r.status == "success")
  match successfulResults with
  | [] => .allFailed
  | first :: _ =>
    .aggregated
      (successfulResults.map (fun r => (r.providerId, r.data.getD "", calculateConfidence r)))
      (first.data.getD "")
      ((results.map (·.responseTime)).sum / (results.length : ℚ))

structure JobResult where
  requestId : String
  results : List APIResponse
  aggregatedData : AggregatedData
  totalCost : ℚ
  completedAt : ℤ
deriving DecidableEq

/-- `processRequest`: requested providers (or all registered when the
request names none), each settled independently, costs summed. -/
def processRequest (providers : List (String × Adapter)) (request : APIRequest)
    (now : ℤ) : JobResult :=
  let providerNames := if 0 < request.providers.length then request.providers
    else providers.map (·.1)
  let results := providerNames.map (runProvider providers request now)
  { requestId := request.id
    results := results
    aggregatedData := aggregateResults results
    totalCost := (results.map (·.cost)).sum
    completedAt := now }

/-- `executeRequest` delegates to `processRequest`; the in-flight job
dedup by request id only shares the same promise between concurrent
callers and is invisible to a single call. -/
def executeRequest (providers : List (String × Adapter)) (request : APIRequest)
    (now : ℤ) : JobResult :=
  processRequest providers request now

/-! ## Perplexity citation extraction (PerplexityProvider.extractCitations)

Two regex passes over the response text: bracketed numeric markers
matching the pattern bracket-digits-bracket, then bare URLs matching
http or https followed by a run of characters that are neither
whitespace nor a closing parenthesis; the concatenation is deduplicated
preserving first occurrences, as spreading a `Set` does. -/

/-- The characters of the JS whitespace class, ASCII scope. -/
def jsIsSpace (c : Char) : Bool :=
  c == ' ' || c == '\t' || c == '\n' || c == '\r' || c == Char.ofNat 11 || c == Char.ofNat 12

/-- A character admissible inside the URL run. -/
def urlChar (c : Char) : Bool := !(jsIsSpace c) && c != ')'

def httpsChars : List Char := ['h', 't', 't', 'p', 's', ':', '/', '/']
def httpChars : List Char := ['h', 't', 't', 'p', ':', '/', '/']

/-- All matches of the bracketed-number pattern, leftmost and
non-overlapping.  Advancing one character at a time is equivalent to
resuming after each match because a match body contains no opening
bracket. -/
def numberedScan : List Char → List (List Char)
  | [] => []
  | c :: rest =>
    if c = '[' then
      match rest.takeWhile Char.isDigit, rest.dropWhile Char.isDigit with
      | _ :: _, ']' :: _ =>
        ('[' :: (rest.takeWhile Char.isDigit ++ [']'])) :: numberedScan rest
      | _, _ => numberedScan rest
    else numberedScan rest

/-- All matches of the URL pattern, leftmost and non-overlapping,
resuming after each match.  The fuel argument makes the recursion
structural; `cs.length` fuel suffices because every step consumes at
least one character. -/
def urlScanFuel : Nat → List Char → List (List Char)
  | 0, _ => []
  | _ + 1, [] => []
  | fuel + 1, c :: rest =>
    let cs := c :: rest
    if httpsChars.isPrefixOf cs then
      let run := (cs.drop 8).takeWhile urlChar
      if run.isEmpty then urlScanFuel fuel rest
      else (httpsChars ++ run) :: urlScanFuel fuel (cs.drop (8 + run.length))
    else if httpChars.isPrefixOf cs then
      let run := (cs.drop 7).takeWhile urlChar
      if run.isEmpty then urlScanFuel fuel rest
      else (httpChars ++ run) :: urlScanFuel fuel (cs.drop (7 + run.length))
    else urlScanFuel fuel rest

def urlScan (cs : List Char) : List (List Char) :=
  urlScanFuel cs.length cs

/-- `[...new Set(citations)]`: keep the first occurrence of each string. -/
def dedupFirstAux (seen : List String) : List String → List String
  | [] => []
  | x :: xs =>
    if x ∈ seen then dedupFirstAux seen xs
    else x :: dedupFirstAux (x :: seen) xs

def dedupFirst (l : List String) : List String := dedupFirstAux [] l

/-- `PerplexityProvider.extractCitations`: numbered markers, then URLs,
deduplicated. -/
def perplexityExtractCitations (content : String) : List String :=
  dedupFirst ((numberedScan content.data).map String.mk ++ (urlScan content.data).map String.mk)

/-- Modelled from the spec: the repository contains no URL parser, so the
claim that extracted citations parse as URLs is stated against the
WHATWG requirement that a parseable URL starts with an alphabetic scheme
followed by a colon. -/
def schemeChar (c : Char) : Bool := c.isAlphanum || c == '+' || c == '-' || c == '.'

/-- Modelled from the spec: `url` successfully parses when an alphabetic
initial character begins a scheme that is terminated by a colon. -/
def urlParses (s : String) : Bool :=
  match s.data with
  | [] => false
  | c :: _ =>
    c.isAlpha &&
    (match s.data.dropWhile schemeChar with
     | ':' :: _ => true
     | _ => false)

/-- The marker shape produced by the numbered pass: an opening bracket,
one or more digits, a closing bracket. -/
def isNumberedMarker (s : String) : Prop :=
  ∃ ds : List Char, ds ≠ [] ∧ (∀ c ∈ ds, c.isDigit = true) ∧ s.data = '[' :: (ds ++ [']'])

/-- The shape produced by the URL pass: an http or https scheme prefix
followed by a nonempty run. -/
def isUrlShaped (s : String) : Prop :=
  (∃ run : List Char, run ≠ [] ∧ s.data = httpsChars ++ run) ∨
  (∃ run : List Char, run ≠ [] ∧ s.data = httpChars ++ run)

/-! ## Stored brand history update (updateBrandWithQueryResults in
src/firebase/firestore/getUserBrands.ts, read-modify-write core)

The Firestore read and write are I/O; `computeUpdatedResults` embeds the
pure computation between them: filter out the current session, append
the new batch, sort most-recent-first, cap at 50, truncate long
responses.  `new Date(r.date).getTime()` is the `parseDate` parameter. -/

structure StoredProviderResult where
  response : String
  error : Option String
  timestamp : String
  responseTime : Option ℚ
deriving DecidableEq

structure StoredResults where
  chatgpt : Option StoredProviderResult
  gemini : Option StoredProviderResult
  perplexity : Option StoredProviderResult
deriving DecidableEq

structure StoredQueryResult where
  date : String
  processingSessionId : String
  processingSessionTimestamp : String
  query : String
  keyword : String
  category : String
  results : StoredResults
deriving DecidableEq

/-- Responses longer than 10000 characters are truncated with a marker. -/
def truncateResponse (s : String) : String :=
  if 10000 < s.length then String.mk (s.data.take 10000) ++ "...[truncated]" else s

def truncateStoredProvider (r : StoredProviderResult) : StoredProviderResult :=
  { r with response := truncateResponse r.response }

def truncateStored (r : StoredQueryResult) : StoredQueryResult :=
  { r with results :=
    { chatgpt := r.results.chatgpt.map truncateStoredProvider
      gemini := r.results.gemini.map truncateStoredProvider
      perplexity := r.results.perplexity.map truncateStoredProvider } }

def MAX_STORED_RESULTS : Nat := 50

/-- The sort comparator over dates, descending (JS
`new Date(b.date) - new Date(a.date)`). -/
def dateDescCmp (parseDate : String → ℤ) (a b : StoredQueryResult) : ℤ :=
  parseDate b.date - parseDate a.date

/-- The pure core of `updateBrandWithQueryResults`: note that
`if (currentSessionId)` treats an absent batch or an empty session id
string as falsy, skipping the same-session filter. -/
def computeUpdatedResults (parseDate : String → ℤ)
    (existingResults queryResults : List StoredQueryResult) : List StoredQueryResult :=
  let existing2 := match queryResults.head? with
    | some h =>
      if h.processingSessionId ≠ "" then
        existingResults.filter (fun r => r.processingSessionId ≠ h.processingSessionId)
      else existingResults
    | none => existingResults
  let allResults := existing2 ++ queryResults
  let limited := (List.insertionSort (fun a b => dateDescCmp parseDate a b ≤ 0) allResults).take
    MAX_STORED_RESULTS
  limited.map truncateStored

/-! ## Concrete inputs used by witnesses and counterexamples -/

/-- Extractors returning no citations. -/
def exNone : Extractors :=
  { chatgpt := fun _ => [], googleAI := fun _ _ => [], perplexity := fun _ _ => [] }

def citDummy : Citation := { url := "u", text := "", source := none }
def citAcme1 : Citation := { url := "https://acme.com/a", text := "", source := none }
def citAcme2 : Citation := { url := "https://acme.com/b", text := "", source := none }
def citOther1 : Citation := { url := "https://x.example", text := "", source := none }
def citOther2 : Citation := { url := "https://y.example", text := "", source := none }
def citQdom1 : Citation := { url := "https://q.com/a", text := "", source := none }
def citQdom2 : Citation := { url := "https://q.com/b", text := "", source := none }

/-- A query result with only a chatgpt response. -/
def qrMini : QueryProcessingResult :=
  { date := "d", processingSessionId := "s"
    results := { chatgpt := some { response := "a", responseTime := none }
                 googleAI := none, perplexity := none } }

/-- Extractors for the tie scenario: four citations per text provider,
two of them on the brand domain. -/
def exTie : Extractors :=
  { chatgpt := fun _ => [citAcme1, citAcme2, citOther1, citOther2]
    googleAI := fun _ _ => []
    perplexity := fun _ _ => [citAcme1, citAcme2, citOther1, citOther2] }

/-- Both text providers mention the brand three times. -/
def qrTie : QueryProcessingResult :=
  { date := "d", processingSessionId := "s"
    results := { chatgpt := some { response := "acme acme acme", responseTime := none }
                 googleAI := none
                 perplexity := some { response := "acme acme acme", responseTime := none } } }

/-- Extractors for the zero-performance-top scenario: the chatgpt list
has the most citations and none on the domain; the google and
perplexity lists each cite the domain once among enough citations to
keep the ratio under the epsilon. -/
def exThin : Extractors :=
  { chatgpt := fun _ => List.replicate 1502 citDummy
    googleAI := fun _ _ => citQdom1 :: List.replicate 1500 citDummy
    perplexity := fun _ _ => citQdom2 :: List.replicate 1000 citDummy }

/-- All three providers processed, none mentioning the brand. -/
def qrThin : QueryProcessingResult :=
  { date := "d", processingSessionId := "s"
    results := { chatgpt := some { response := "a", responseTime := none }
                 googleAI := some { aiOverview := some "a", responseTime := none }
                 perplexity := some { response := "a", responseTime := none } } }

/-- The ranking entries the thin scenario produces, in sorted order. -/
def rkThinTop : Ranking :=
  { provider := "chatgpt", brandMentions := 0, domainCitationsRatio := 0
    totalCitations := 1502, domainCitations := 0 }

def rkThinG : Ranking :=
  { provider := "google", brandMentions := 0, domainCitationsRatio := 1/1501
    totalCitations := 1501, domainCitations := 1 }

def rkThinP : Ranking :=
  { provider := "perplexity", brandMentions := 0, domainCitationsRatio := 1/1001
    totalCitations := 1001, domainCitations := 1 }

/-- The ranking entries the tie scenario produces. -/
def rkTieC : Ranking :=
  { provider := "chatgpt", brandMentions := 3, domainCitationsRatio := 1/2
    totalCitations := 4, domainCitations := 2 }

def rkTieP : Ranking :=
  { provider := "perplexity", brandMentions := 3, domainCitationsRatio := 1/2
    totalCitations := 4, domainCitations := 2 }

/-- One query where only chatgpt answered and mentioned the brand. -/
def qrVisA : QueryProcessingResult :=
  { date := "d", processingSessionId := "s"
    results := { chatgpt := some { response := "acme", responseTime := none }
                 googleAI := none, perplexity := none } }

/-- The same query with an additional empty Google AI overview. -/
def qrVisB : QueryProcessingResult :=
  { date := "d", processingSessionId := "s"
    results := { chatgpt := some { response := "acme", responseTime := none }
                 googleAI := some { aiOverview := some "", responseTime := none }
                 perplexity := none } }

/-- An adapter that answers successfully. -/
def adapterGood : Adapter :=
  { name := "perplexity"
    execute := fun _ => .ok
      { providerId := "perplexity", requestId := "r1", status := "success"
        data := some "hello", error := none, responseTime := 5, cost := 1
        timestamp := 0 } }

/-- An adapter that throws. -/
def adapterBad : Adapter :=
  { name := "chatgptsearch", execute := fun _ => .error "boom" }

def registry7 : List (String × Adapter) :=
  [("perplexity", adapterGood), ("chatgptsearch", adapterBad)]

def request7 : APIRequest :=
  { id := "req-1", prompt := "p", providers := ["perplexity", "missing", "chatgptsearch"]
    userId := "u" }

/-- A stored history entry with an empty processing session id. -/
def storedOld : StoredQueryResult :=
  { date := "a", processingSessionId := "", processingSessionTimestamp := ""
    query := "old", keyword := "", category := ""
    results := { chatgpt := none, gemini := none, perplexity := none } }

/-- A new batch entry with the same empty processing session id. -/
def storedNew : StoredQueryResult :=
  { date := "b", processingSessionId := "", processingSessionTimestamp := ""
    query := "new", keyword := "", category := ""
    results := { chatgpt := none, gemini := none, perplexity := none } }

/-- Stored entries for the replacement witness. -/
def storedE1 : StoredQueryResult :=
  { date := "a", processingSessionId := "s1", processingSessionTimestamp := ""
    query := "q1", keyword := "", category := ""
    results := { chatgpt := none, gemini := none, perplexity := none } }

def storedN1 : StoredQueryResult :=
  { date := "b", processingSessionId := "s2", processingSessionTimestamp := ""
    query := "q2", keyword := "", category := ""
    results := { chatgpt := none, gemini := none, perplexity := none } }

/-! ## Helper lemmas about the stable sort -/

theorem orderedInsert_head? {α : Type} (r : α → α → Prop) [DecidableRel r] (x : α)
    (l : List α) :
    (List.orderedInsert r x l).head? = some x ∨ (List.orderedInsert r x l).head? = l.head? := by
  cases l with
  | nil => left; rfl
  | cons z zs => by_cases h : r x z <;> simp [List.orderedInsert, h]

/-- Inserting into an adjacently ordered list keeps it adjacently
ordered, provided the order relation can always be flipped (which the
antisymmetric JS comparator guarantees, even where its epsilon tie is
not transitive). -/
theorem chain'_orderedInsert {α : Type} (r : α → α → Prop) [DecidableRel r]
    (hr : ∀ a b, ¬ r a b → r b a) (x : α) (l : List α) (h : List.Chain' r l) :
    List.Chain' r (List.orderedInsert r x l) := by
  induction l with
  | nil => simp [List.orderedInsert]
  | cons y ys ih =>
    by_cases hxy : r x y
    · rw [List.orderedInsert, if_pos hxy]
      exact List.chain'_cons'.mpr ⟨by intro b hb; simp at hb; subst hb; exact hxy, h⟩
    · rw [List.orderedInsert, if_neg hxy]
      have hys := List.chain'_cons'.mp h
      refine List.chain'_cons'.mpr ⟨?_, ih hys.2⟩
      intro b hb
      rcases orderedInsert_head? r x ys with he | he
      · rw [he] at hb; simp at hb; subst hb; exact hr x y hxy
      · rw [he] at hb; exact hys.1 b hb

theorem chain'_insertionSort {α : Type} (r : α → α → Prop) [DecidableRel r]
    (hr : ∀ a b, ¬ r a b → r b a) (l : List α) :
    List.Chain' r (List.insertionSort r l) := by
  induction l with
  | nil => simp [List.insertionSort]
  | cons x xs ih => exact chain'_orderedInsert r hr x _ ih

theorem insertionSort_pair {α : Type} (r : α → α → Prop) [DecidableRel r] (a b : α)
    (h : r a b) : List.insertionSort r [a, b] = [a, b] := by
  simp [List.insertionSort, List.orderedInsert, if_pos h]

theorem insertionSort_three {α : Type} (r : α → α → Prop) [DecidableRel r] (a b c : α)
    (h1 : r b c) (h2 : r a b) : List.insertionSort r [a, b, c] = [a, b, c] := by
  simp [List.insertionSort, List.orderedInsert, if_pos h1, if_pos h2]

/-! ## Helper lemmas about the ranking comparator -/

theorem providerCmp_flip (a b : Ranking) (h : ¬ providerCmp a b ≤ 0) :
    providerCmp b a ≤ 0 := by
  unfold providerCmp at *
  by_cases h1 : a.brandMentions = b.brandMentions
  · rw [if_neg (by simp [h1])] at h
    rw [if_neg (by simp [h1])]
    rw [abs_sub_comm] at h
    by_cases h2 : 1/1000 < |b.domainCitationsRatio - a.domainCitationsRatio|
    · rw [if_pos h2] at h ⊢; linarith
    · rw [if_neg h2] at h ⊢; linarith
  · rw [if_pos h1] at h
    rw [if_pos (fun e => h1 e.symm)]
    linarith

theorem providerCmp_le_iff (a b : Ranking) : providerCmp a b ≤ 0 ↔ rankLE a b := by
  unfold providerCmp rankLE
  by_cases h1 : a.brandMentions = b.brandMentions
  · rw [if_neg (by simp [h1])]
    by_cases h2 : 1/1000 < |a.domainCitationsRatio - b.domainCitationsRatio|
    · rw [if_pos h2]
      constructor
      · intro h3
        refine Or.inr ⟨h1, Or.inl ?_⟩
        have h4 : 0 ≤ a.domainCitationsRatio - b.domainCitationsRatio := by
          rw [abs_sub_comm] at h2
          by_contra h5
          rw [abs_of_nonneg (by linarith)] at h2
          linarith
        rw [abs_of_nonneg h4] at h2
        exact h2
      · rintro (h3 | ⟨-, h4 | ⟨h5, -⟩⟩)
        · omega
        · linarith
        · linarith
    · rw [if_neg h2]
      push_neg at h2
      constructor
      · intro h3
        refine Or.inr ⟨h1, Or.inr ⟨h2, ?_⟩⟩
        have := sub_nonpos.mp h3
        exact_mod_cast this
      · rintro (h3 | ⟨-, h4 | ⟨-, h5⟩⟩)
        · omega
        · have := le_abs_self (a.domainCitationsRatio - b.domainCitationsRatio)
          linarith
        · rw [sub_nonpos]
          exact_mod_cast h5
  · rw [if_pos h1]
    constructor
    · intro h3
      have h4 : b.brandMentions ≤ a.brandMentions := by
        have := sub_nonpos.mp h3
        exact_mod_cast this
      exact Or.inl (by omega)
    · rintro (h3 | ⟨h4, -⟩)
      · rw [sub_nonpos]
        exact_mod_cast Nat.le_of_lt h3
      · exact absurd h4 h1

theorem providerCmpLe_flip (a b : Ranking)
    (h : ¬ (fun x y => providerCmp x y ≤ 0) a b) :
    (fun x y => providerCmp x y ≤ 0) b a := providerCmp_flip a b h

/-! ## Helper lemmas about the analytics fold -/

theorem foldStep_totalBrandMentions (E : Extractors) (bn bd : String)
    (s : FoldState) (qr : QueryProcessingResult) :
    (foldStep E bn bd s qr).totalBrandMentions =
      s.totalBrandMentions + (queryAnalysis E bn bd qr).totals.totalBrandMentions := rfl

theorem foldStep_totalCitations (E : Extractors) (bn bd : String)
    (s : FoldState) (qr : QueryProcessingResult) :
    (foldStep E bn bd s qr).totalCitations =
      s.totalCitations + (queryAnalysis E bn bd qr).totals.totalCitations := rfl

theorem foldStep_totalDomainCitations (E : Extractors) (bn bd : String)
    (s : FoldState) (qr : QueryProcessingResult) :
    (foldStep E bn bd s qr).totalDomainCitations =
      s.totalDomainCitations + (queryAnalysis E bn bd qr).totals.totalDomainCitations := rfl

theorem foldStep_withMentions (E : Extractors) (bn bd : String)
    (s : FoldState) (qr : QueryProcessingResult) :
    (foldStep E bn bd s qr).totalProvidersWithBrandMentions =
      s.totalProvidersWithBrandMentions +
        (queryAnalysis E bn bd qr).totals.providersWithBrandMention := rfl

theorem foldStep_totalProviders (E : Extractors) (bn bd : String)
    (s : FoldState) (qr : QueryProcessingResult) :
    (foldStep E bn bd s qr).totalProviders =
      s.totalProviders + (presentResults (queryAnalysis E bn bd qr).results).length := rfl

/-- Per query, the providers counted as mentioning the brand are a
subset of the providers counted at all. -/
theorem queryAnalysis_mention_le (E : Extractors) (bn bd : String)
    (qr : QueryProcessingResult) :
    (queryAnalysis E bn bd qr).totals.providersWithBrandMention ≤
      (presentResults (queryAnalysis E bn bd qr).results).length := by
  unfold queryAnalysis analyzeBrandMentions
  exact List.length_filter_le _ _

theorem foldl_tbm_le (E : Extractors) (bn bd : String) (l : List QueryProcessingResult) :
    ∀ s : FoldState,
      s.totalBrandMentions ≤ (l.foldl (foldStep E bn bd) s).totalBrandMentions := by
  induction l with
  | nil => intro s; simp
  | cons q qs ih =>
    intro s
    calc s.totalBrandMentions
        ≤ (foldStep E bn bd s q).totalBrandMentions := by
          rw [foldStep_totalBrandMentions]; exact Nat.le_add_right _ _
      _ ≤ _ := ih _

theorem foldl_tc_le (E : Extractors) (bn bd : String) (l : List QueryProcessingResult) :
    ∀ s : FoldState, s.totalCitations ≤ (l.foldl (foldStep E bn bd) s).totalCitations := by
  induction l with
  | nil => intro s; simp
  | cons q qs ih =>
    intro s
    calc s.totalCitations
        ≤ (foldStep E bn bd s q).totalCitations := by
          rw [foldStep_totalCitations]; exact Nat.le_add_right _ _
      _ ≤ _ := ih _

theorem foldl_tdc_le (E : Extractors) (bn bd : String) (l : List QueryProcessingResult) :
    ∀ s : FoldState,
      s.totalDomainCitations ≤ (l.foldl (foldStep E bn bd) s).totalDomainCitations := by
  induction l with
  | nil => intro s; simp
  | cons q qs ih =>
    intro s
    calc s.totalDomainCitations
        ≤ (foldStep E bn bd s q).totalDomainCitations := by
          rw [foldStep_totalDomainCitations]; exact Nat.le_add_right _ _
      _ ≤ _ := ih _

/-- The fold keeps the count of mentioning providers below the count of
all counted providers. -/
theorem foldl_mention_invariant (E : Extractors) (bn bd : String)
    (l : List QueryProcessingResult) :
    ∀ s : FoldState,
      s.totalProvidersWithBrandMentions ≤ s.totalProviders →
      (l.foldl (foldStep E bn bd) s).totalProvidersWithBrandMentions ≤
        (l.foldl (foldStep E bn bd) s).totalProviders := by
  induction l with
  | nil => intro s h; simpa using h
  | cons q qs ih =>
    intro s h
    refine ih _ ?_
    rw [foldStep_withMentions, foldStep_totalProviders]
    exact Nat.add_le_add h (queryAnalysis_mention_le E bn bd q)

theorem accumStats_mention_le (E : Extractors) (bn bd : String)
    (l : List QueryProcessingResult) :
    (accumStats E bn bd l).totalProvidersWithBrandMentions ≤
      (accumStats E bn bd l).totalProviders :=
  foldl_mention_invariant E bn bd l initFoldState (by simp [initFoldState])

/-! ## Helper lemmas about rounding -/

theorem round2_nonneg (q : ℚ) (h0 : 0 ≤ q) : 0 ≤ round2 q := by
  unfold round2 jsRound
  have h1 : (0 : ℤ) ≤ ⌊q * 100 + 1/2⌋ := Int.le_floor.mpr (by push_cast; linarith)
  have h2 : (0 : ℚ) ≤ (⌊q * 100 + 1/2⌋ : ℚ) := by exact_mod_cast h1
  positivity

theorem round2_le_100 (q : ℚ) (h1 : q ≤ 100) : round2 q ≤ 100 := by
  unfold round2 jsRound
  have h2 : ⌊q * 100 + 1/2⌋ < 10001 := Int.floor_lt.mpr (by push_cast; linarith)
  have h3 : (⌊q * 100 + 1/2⌋ : ℚ) ≤ 10000 := by exact_mod_cast Int.lt_add_one_iff.mp h2
  rw [div_le_iff₀ (by norm_num)]
  linarith

theorem round2_zero : round2 0 = 0 := by
  unfold round2 jsRound
  norm_num

/-! ## Helper lemmas about the top-performer selection -/

theorem topSelection_no_perf (r : List Ranking) : topSelection 0 0 r = ("none", []) := by
  simp [topSelection]

theorem topSelection_top_zero (tbm tdc : Nat) (top : Ranking) (rest : List Ranking)
    (h1 : top.brandMentions = 0) (h2 : top.domainCitations = 0) :
    topSelection tbm tdc (top :: rest) = ("none", []) := by
  simp [topSelection, h1, h2]

theorem topSelection_tie (tbm tdc : Nat) (top : Ranking) (rest : List Ranking)
    (hperf : 0 < tbm ∨ 0 < tdc)
    (htop : 0 < top.brandMentions ∨ 0 < top.domainCitations)
    (htwo : 1 < ((top :: rest).filter (fun p => decide (tieCond top p))).length) :
    topSelection tbm tdc (top :: rest) =
      (jsJoin " & " (((top :: rest).filter (fun p => decide (tieCond top p))).map (·.provider)),
       ((top :: rest).filter (fun p => decide (tieCond top p))).map (·.provider)) := by
  unfold topSelection
  rw [if_pos hperf]
  simp only [if_pos htop, if_pos htwo]

/-! ## Evaluation of the concrete scenarios -/

set_option maxRecDepth 100000

theorem statsThin_eq : accumStats exThin "z" "q.com" [qrThin] =
    { stats := {
        chatgpt := { queriesProcessed := 1, brandMentions := 0, citations := 1502, domainCitations := 0, totalResponseTime := 0 }
        google := { queriesProcessed := 1, brandMentions := 0, citations := 1501, domainCitations := 1, totalResponseTime := 0 }
        perplexity := { queriesProcessed := 1, brandMentions := 0, citations := 1001, domainCitations := 1, totalResponseTime := 0 } }
      totalBrandMentions := 0, totalCitations := 4004, totalDomainCitations := 2
      totalProvidersWithBrandMentions := 0, totalProviders := 3 } := by
  decide

theorem rankThin_eq :
    providerRankings (accumStats exThin "z" "q.com" [qrThin]).stats =
      [rkThinTop, rkThinG, rkThinP] := by
  rw [statsThin_eq]
  unfold providerRankings
  have hf : (providerEntries {
      chatgpt := { queriesProcessed := 1, brandMentions := 0, citations := 1502, domainCitations := 0, totalResponseTime := 0 }
      google := { queriesProcessed := 1, brandMentions := 0, citations := 1501, domainCitations := 1, totalResponseTime := 0 }
      perplexity := { queriesProcessed := 1, brandMentions := 0, citations := 1001, domainCitations := 1, totalResponseTime := 0 } }).filter
        (fun e => 0 < e.2.queriesProcessed) =
      [("chatgpt", { queriesProcessed := 1, brandMentions := 0, citations := 1502, domainCitations := 0, totalResponseTime := 0 }),
       ("google", { queriesProcessed := 1, brandMentions := 0, citations := 1501, domainCitations := 1, totalResponseTime := 0 }),
       ("perplexity", { queriesProcessed := 1, brandMentions := 0, citations := 1001, domainCitations := 1, totalResponseTime := 0 })] := by
    decide
  rw [hf]
  have hm1 : mkRanking "chatgpt"
      { queriesProcessed := 1, brandMentions := 0, citations := 1502, domainCitations := 0, totalResponseTime := 0 } = rkThinTop := by
    simp [mkRanking, rkThinTop]
  have hm2 : mkRanking "google"
      { queriesProcessed := 1, brandMentions := 0, citations := 1501, domainCitations := 1, totalResponseTime := 0 } = rkThinG := by
    simp [mkRanking, rkThinG]
  have hm3 : mkRanking "perplexity"
      { queriesProcessed := 1, brandMentions := 0, citations := 1001, domainCitations := 1, totalResponseTime := 0 } = rkThinP := by
    simp [mkRanking, rkThinP]
  rw [List.map_cons, List.map_cons, List.map_cons, List.map_nil, hm1, hm2, hm3]
  have c1 : providerCmp rkThinG rkThinP ≤ 0 := by
    unfold providerCmp
    rw [if_neg (by simp [rkThinG, rkThinP])]
    rw [if_neg (by
      simp only [rkThinG, rkThinP]
      rw [abs_sub_comm, abs_of_nonneg (by norm_num)]
      norm_num)]
    simp [rkThinG, rkThinP]
    norm_num
  have c2 : providerCmp rkThinTop rkThinG ≤ 0 := by
    unfold providerCmp
    rw [if_neg (by simp [rkThinTop, rkThinG])]
    rw [if_neg (by
      simp only [rkThinTop, rkThinG]
      rw [abs_sub_comm, abs_of_nonneg (by norm_num)]
      norm_num)]
    simp [rkThinTop, rkThinG]
    norm_num
  exact insertionSort_three _ rkThinTop rkThinG rkThinP c1 c2

/-! ## C1 -/

/-- C1: for every fold input to `calculateCumulativeAnalytics`, zero
accumulated brand mentions and domain citations give the `"none"`
sentinel and an empty top-provider list; and whenever the top-ranked
provider itself has zero brand mentions and zero domain citations the
result is again `"none"` with an empty list. -/
theorem claim_C1 (E : Extractors) (u b bn bd sid ts : String)
    (qrs : List QueryProcessingResult) (now : ℤ) :
    ((calculateCumulativeAnalytics E u b bn bd sid ts qrs now).totalBrandMentions = 0 →
     (calculateCumulativeAnalytics E u b bn bd sid ts qrs now).totalDomainCitations = 0 →
     (calculateCumulativeAnalytics E u b bn bd sid ts qrs now).insights.topPerformingProvider = "none" ∧
     (calculateCumulativeAnalytics E u b bn bd sid ts qrs now).insights.topProviders = []) ∧
    (∀ top rest, providerRankings (accumStats E bn bd qrs).stats = top :: rest →
     top.brandMentions = 0 → top.domainCitations = 0 →
     (calculateCumulativeAnalytics E u b bn bd sid ts qrs now).insights.topPerformingProvider = "none" ∧
     (calculateCumulativeAnalytics E u b bn bd sid ts qrs now).insights.topProviders = []) := by
  have e1 : (calculateCumulativeAnalytics E u b bn bd sid ts qrs now).insights.topPerformingProvider =
      (topSelection (accumStats E bn bd qrs).totalBrandMentions
        (accumStats E bn bd qrs).totalDomainCitations
        (providerRankings (accumStats E bn bd qrs).stats)).1 := rfl
  have e2 : (calculateCumulativeAnalytics E u b bn bd sid ts qrs now).insights.topProviders =
      (topSelection (accumStats E bn bd qrs).totalBrandMentions
        (accumStats E bn bd qrs).totalDomainCitations
        (providerRankings (accumStats E bn bd qrs).stats)).2 := rfl
  have e3 : (calculateCumulativeAnalytics E u b bn bd sid ts qrs now).totalBrandMentions =
      (accumStats E bn bd qrs).totalBrandMentions := rfl
  have e4 : (calculateCumulativeAnalytics E u b bn bd sid ts qrs now).totalDomainCitations =
      (accumStats E bn bd qrs).totalDomainCitations := rfl
  constructor
  · intro h1 h2
    rw [e3] at h1
    rw [e4] at h2
    rw [e1, e2, h1, h2, topSelection_no_perf]
    exact ⟨rfl, rfl⟩
  · intro top rest hr h1 h2
    rw [e1, e2, hr, topSelection_top_zero _ _ top rest h1 h2]
    exact ⟨rfl, rfl⟩

/-- Witness for C1: a fold in which providers did accumulate citations
(two of them on the brand domain) yet the top-ranked provider has zero
brand mentions and zero domain citations, so the sentinel is produced. -/
theorem claim_C1_witness :
    providerRankings (accumStats exThin "z" "q.com" [qrThin]).stats = rkThinTop :: [rkThinG, rkThinP] ∧
    rkThinTop.brandMentions = 0 ∧
    (calculateCumulativeAnalytics exThin "u" "b" "z" "q.com" "sid" "ts" [qrThin] 0).totalDomainCitations = 2 ∧
    ((calculateCumulativeAnalytics exThin "u" "b" "z" "q.com" "sid" "ts" [qrThin] 0).insights.topPerformingProvider = "none" ∧
     (calculateCumulativeAnalytics exThin "u" "b" "z" "q.com" "sid" "ts" [qrThin] 0).insights.topProviders = []) :=
  ⟨rankThin_eq, rfl, by rw [show (calculateCumulativeAnalytics exThin "u" "b" "z" "q.com" "sid" "ts" [qrThin] 0).totalDomainCitations = (accumStats exThin "z" "q.com" [qrThin]).totalDomainCitations from rfl, statsThin_eq],
   (claim_C1 exThin "u" "b" "z" "q.com" "sid" "ts" [qrThin] 0).2 rkThinTop [rkThinG, rkThinP]
     rankThin_eq rfl rfl⟩

/-! ## C4 -/

/-- C4: the visibility score equals the share of counted
provider-results with a brand mention, as a percentage rounded to two
decimals, with value 0 when no provider-results were counted; and it
always lies between 0 and 100. -/
theorem claim_C4 (E : Extractors) (u b bn bd sid ts : String)
    (qrs : List QueryProcessingResult) (now : ℤ) :
    (calculateCumulativeAnalytics E u b bn bd sid ts qrs now).brandVisibilityScore =
      (if 0 < (accumStats E bn bd qrs).totalProviders then
        round2 (((accumStats E bn bd qrs).totalProvidersWithBrandMentions : ℚ) /
          ((accumStats E bn bd qrs).totalProviders : ℚ) * 100)
      else 0) ∧
    0 ≤ (calculateCumulativeAnalytics E u b bn bd sid ts qrs now).brandVisibilityScore ∧
    (calculateCumulativeAnalytics E u b bn bd sid ts qrs now).brandVisibilityScore ≤ 100 := by
  have e : (calculateCumulativeAnalytics E u b bn bd sid ts qrs now).brandVisibilityScore =
      round2 (if 0 < (accumStats E bn bd qrs).totalProviders then
        ((accumStats E bn bd qrs).totalProvidersWithBrandMentions : ℚ) /
          ((accumStats E bn bd qrs).totalProviders : ℚ) * 100
      else 0) := rfl
  by_cases h : 0 < (accumStats E bn bd qrs).totalProviders
  · have hle := accumStats_mention_le E bn bd qrs
    have htp : (0 : ℚ) < ((accumStats E bn bd qrs).totalProviders : ℚ) := by
      exact_mod_cast h
    have hq0 : (0 : ℚ) ≤ ((accumStats E bn bd qrs).totalProvidersWithBrandMentions : ℚ) /
        ((accumStats E bn bd qrs).totalProviders : ℚ) * 100 := by positivity
    have hq1 : ((accumStats E bn bd qrs).totalProvidersWithBrandMentions : ℚ) /
        ((accumStats E bn bd qrs).totalProviders : ℚ) * 100 ≤ 100 := by
      have hr : ((accumStats E bn bd qrs).totalProvidersWithBrandMentions : ℚ) /
          ((accumStats E bn bd qrs).totalProviders : ℚ) ≤ 1 :=
        (div_le_one htp).mpr (by exact_mod_cast hle)
      linarith
    rw [e, if_pos h, if_pos h]
    exact ⟨rfl, round2_nonneg _ hq0, round2_le_100 _ hq1⟩
  · rw [e, if_neg h, if_neg h, round2_zero]
    norm_num

/-! ## C6 -/

/-- C6: the three accumulated totals are non-negative integers and
extending the folded query list never decreases any of them. -/
theorem claim_C6 (E : Extractors) (u b bn bd sid ts : String) (now : ℤ)
    (qrs extra : List QueryProcessingResult) :
    (0 ≤ (calculateCumulativeAnalytics E u b bn bd sid ts qrs now).totalBrandMentions ∧
     0 ≤ (calculateCumulativeAnalytics E u b bn bd sid ts qrs now).totalCitations ∧
     0 ≤ (calculateCumulativeAnalytics E u b bn bd sid ts qrs now).totalDomainCitations) ∧
    (calculateCumulativeAnalytics E u b bn bd sid ts qrs now).totalBrandMentions ≤
      (calculateCumulativeAnalytics E u b bn bd sid ts (qrs ++ extra) now).totalBrandMentions ∧
    (calculateCumulativeAnalytics E u b bn bd sid ts qrs now).totalCitations ≤
      (calculateCumulativeAnalytics E u b bn bd sid ts (qrs ++ extra) now).totalCitations ∧
    (calculateCumulativeAnalytics E u b bn bd sid ts qrs now).totalDomainCitations ≤
      (calculateCumulativeAnalytics E u b bn bd sid ts (qrs ++ extra) now).totalDomainCitations := by
  have ha : accumStats E bn bd (qrs ++ extra) =
      extra.foldl (foldStep E bn bd) (accumStats E bn bd qrs) := by
    unfold accumStats
    exact List.foldl_append _ _ _ _
  refine ⟨⟨Nat.zero_le _, Nat.zero_le _, Nat.zero_le _⟩, ?_, ?_, ?_⟩
  · show (accumStats E bn bd qrs).totalBrandMentions ≤
      (accumStats E bn bd (qrs ++ extra)).totalBrandMentions
    rw [ha]
    exact foldl_tbm_le E bn bd extra _
  · show (accumStats E bn bd qrs).totalCitations ≤
      (accumStats E bn bd (qrs ++ extra)).totalCitations
    rw [ha]
    exact foldl_tc_le E bn bd extra _
  · show (accumStats E bn bd qrs).totalDomainCitations ≤
      (accumStats E bn bd (qrs ++ extra)).totalDomainCitations
    rw [ha]
    exact foldl_tdc_le E bn bd extra _

/-! ## C5 -/

/-- C5: folding the same query list with the same arguments is
deterministic: two runs agree on every field except the timestamp
fields (`lastUpdated`/`createdAt` of the session record, `calculatedAt`
of the lifetime record, which take the impure clock values `t1`, `t2`,
`nowIso1`, `nowIso2`). -/
theorem claim_C5 (E : Extractors) (parseDate : String → Option ℤ)
    (u b bn bd sid ts nowIso1 nowIso2 : String)
    (qrs : List QueryProcessingResult) (tps : Nat) (t1 t2 : ℤ) :
    coreOf (calculateCumulativeAnalytics E u b bn bd sid ts qrs t1) =
      coreOf (calculateCumulativeAnalytics E u b bn bd sid ts qrs t2) ∧
    lifetimeCoreOf (lifetimeFromGathered E parseDate u b bn bd qrs tps nowIso1 t1) =
      lifetimeCoreOf (lifetimeFromGathered E parseDate u b bn bd qrs tps nowIso2 t2) :=
  ⟨rfl, by cases qrs <;> rfl⟩

/-! ## C2 -/

/-- C2: when there is brand performance, the ranking list consists of
exactly the providers with at least one processed query (a permutation
of their ranking records in the fixed entry order), adjacent entries are
ordered by the descending comparator with its epsilon-tolerant ratio
tie, and the recorded ranking details follow the same order. -/
theorem claim_C2 (E : Extractors) (u b bn bd sid ts : String)
    (qrs : List QueryProcessingResult) (now : ℤ)
    (hperf : 0 < (calculateCumulativeAnalytics E u b bn bd sid ts qrs now).totalBrandMentions ∨
      0 < (calculateCumulativeAnalytics E u b bn bd sid ts qrs now).totalDomainCitations) :
    (providerRankings (accumStats E bn bd qrs).stats).Perm
      (((providerEntries (accumStats E bn bd qrs).stats).filter
        (fun e => 0 < e.2.queriesProcessed)).map (fun e => mkRanking e.1 e.2)) ∧
    List.Chain' rankLE (providerRankings (accumStats E bn bd qrs).stats) ∧
    (calculateCumulativeAnalytics E u b bn bd sid ts qrs now).insights.providerRankingDetails =
      rankingDetails (providerRankings (accumStats E bn bd qrs).stats) := by
  refine ⟨List.perm_insertionSort _ _, ?_, rfl⟩
  have hch := chain'_insertionSort (fun x y => providerCmp x y ≤ 0) providerCmp_flip
    (((providerEntries (accumStats E bn bd qrs).stats).filter
      (fun e => 0 < e.2.queriesProcessed)).map (fun e => mkRanking e.1 e.2))
  exact List.Chain'.imp (fun a b h => (providerCmp_le_iff a b).mp h) hch

theorem statsTie_eq : accumStats exTie "acme" "acme.com" [qrTie] =
    { stats := {
        chatgpt := { queriesProcessed := 1, brandMentions := 3, citations := 4, domainCitations := 2, totalResponseTime := 0 }
        google := initPStat
        perplexity := { queriesProcessed := 1, brandMentions := 3, citations := 4, domainCitations := 2, totalResponseTime := 0 } }
      totalBrandMentions := 6, totalCitations := 8, totalDomainCitations := 4
      totalProvidersWithBrandMentions := 2, totalProviders := 2 } := by
  decide

theorem rankTie_eq :
    providerRankings (accumStats exTie "acme" "acme.com" [qrTie]).stats = [rkTieC, rkTieP] := by
  rw [statsTie_eq]
  unfold providerRankings
  have hf : (providerEntries {
      chatgpt := { queriesProcessed := 1, brandMentions := 3, citations := 4, domainCitations := 2, totalResponseTime := 0 }
      google := initPStat
      perplexity := { queriesProcessed := 1, brandMentions := 3, citations := 4, domainCitations := 2, totalResponseTime := 0 } }).filter
        (fun e => 0 < e.2.queriesProcessed) =
      [("chatgpt", { queriesProcessed := 1, brandMentions := 3, citations := 4, domainCitations := 2, totalResponseTime := 0 }),
       ("perplexity", { queriesProcessed := 1, brandMentions := 3, citations := 4, domainCitations := 2, totalResponseTime := 0 })] := by
    decide
  rw [hf]
  have hm1 : mkRanking "chatgpt"
      { queriesProcessed := 1, brandMentions := 3, citations := 4, domainCitations := 2, totalResponseTime := 0 } = rkTieC := by
    simp [mkRanking, rkTieC]
    norm_num
  have hm2 : mkRanking "perplexity"
      { queriesProcessed := 1, brandMentions := 3, citations := 4, domainCitations := 2, totalResponseTime := 0 } = rkTieP := by
    simp [mkRanking, rkTieP]
    norm_num
  rw [List.map_cons, List.map_cons, List.map_nil, hm1, hm2]
  have c1 : providerCmp rkTieC rkTieP ≤ 0 := by
    unfold providerCmp
    rw [if_neg (by simp [rkTieC, rkTieP])]
    rw [if_neg (by simp [rkTieC, rkTieP])]
    simp [rkTieC, rkTieP]
  exact insertionSort_pair _ rkTieC rkTieP c1

/-- Witness for C2: the tie scenario has brand performance and its
ranking list satisfies the proved ordering properties. -/
theorem claim_C2_witness :
    0 < (calculateCumulativeAnalytics exTie "u" "b" "acme" "acme.com" "sid" "ts" [qrTie] 0).totalBrandMentions ∧
    (providerRankings (accumStats exTie "acme" "acme.com" [qrTie]).stats).Perm
      (((providerEntries (accumStats exTie "acme" "acme.com" [qrTie]).stats).filter
        (fun e => 0 < e.2.queriesProcessed)).map (fun e => mkRanking e.1 e.2)) ∧
    List.Chain' rankLE (providerRankings (accumStats exTie "acme" "acme.com" [qrTie]).stats) := by
  have hp : 0 < (calculateCumulativeAnalytics exTie "u" "b" "acme" "acme.com" "sid" "ts" [qrTie] 0).totalBrandMentions := by
    rw [show (calculateCumulativeAnalytics exTie "u" "b" "acme" "acme.com" "sid" "ts" [qrTie] 0).totalBrandMentions =
      (accumStats exTie "acme" "acme.com" [qrTie]).totalBrandMentions from rfl, statsTie_eq]
    norm_num
  have hc := claim_C2 exTie "u" "b" "acme" "acme.com" "sid" "ts" [qrTie] 0 (Or.inl hp)
  exact ⟨hp, hc.1, hc.2.1⟩

/-! ## C3 -/

/-- C3 counterexample: in the thin scenario two ranked providers
(google and perplexity) match the top entry in brand mentions, have a
domain-citation ratio within 0.001 of the top entry, and have nonzero
performance, yet `topProviders` is empty and the display name is the
sentinel, because the top-ranked entry itself has no performance.  This
falsifies the claim as stated. -/
theorem claim_C3_counterexample :
    providerRankings (accumStats exThin "z" "q.com" [qrThin]).stats = [rkThinTop, rkThinG, rkThinP] ∧
    tieCond rkThinTop rkThinG ∧ tieCond rkThinTop rkThinP ∧ rkThinG ≠ rkThinP ∧
    (calculateCumulativeAnalytics exThin "u" "b" "z" "q.com" "sid" "ts" [qrThin] 0).insights.topProviders = [] ∧
    (calculateCumulativeAnalytics exThin "u" "b" "z" "q.com" "sid" "ts" [qrThin] 0).insights.topPerformingProvider = "none" := by
  have e1 : (calculateCumulativeAnalytics exThin "u" "b" "z" "q.com" "sid" "ts" [qrThin] 0).insights.topPerformingProvider =
      (topSelection (accumStats exThin "z" "q.com" [qrThin]).totalBrandMentions
        (accumStats exThin "z" "q.com" [qrThin]).totalDomainCitations
        (providerRankings (accumStats exThin "z" "q.com" [qrThin]).stats)).1 := rfl
  have e2 : (calculateCumulativeAnalytics exThin "u" "b" "z" "q.com" "sid" "ts" [qrThin] 0).insights.topProviders =
      (topSelection (accumStats exThin "z" "q.com" [qrThin]).totalBrandMentions
        (accumStats exThin "z" "q.com" [qrThin]).totalDomainCitations
        (providerRankings (accumStats exThin "z" "q.com" [qrThin]).stats)).2 := rfl
  refine ⟨rankThin_eq, ⟨rfl, ?_, Or.inr (by norm_num [rkThinG])⟩,
    ⟨rfl, ?_, Or.inr (by norm_num [rkThinP])⟩, by decide, ?_, ?_⟩
  · show |rkThinG.domainCitationsRatio - rkThinTop.domainCitationsRatio| < 1/1000
    simp only [rkThinG, rkThinTop]
    rw [sub_zero, abs_of_nonneg (by norm_num)]
    norm_num
  · show |rkThinP.domainCitationsRatio - rkThinTop.domainCitationsRatio| < 1/1000
    simp only [rkThinP, rkThinTop]
    rw [sub_zero, abs_of_nonneg (by norm_num)]
    norm_num
  · rw [e2, rankThin_eq, topSelection_top_zero _ _ rkThinTop [rkThinG, rkThinP] rfl rfl]
  · rw [e1, rankThin_eq, topSelection_top_zero _ _ rkThinTop [rkThinG, rkThinP] rfl rfl]

/-- C3 (amended): when additionally the top-ranked entry itself has
nonzero performance, every ranked provider matching the top entry in
brand mentions and (within 0.001) in domain-citation ratio with nonzero
performance appears in `topProviders`, and the display name joins the
tie group with " & ". -/
theorem claim_C3_amended (E : Extractors) (u b bn bd sid ts : String)
    (qrs : List QueryProcessingResult) (now : ℤ) (top : Ranking) (rest : List Ranking)
    (hr : providerRankings (accumStats E bn bd qrs).stats = top :: rest)
    (hperf : 0 < (calculateCumulativeAnalytics E u b bn bd sid ts qrs now).totalBrandMentions ∨
      0 < (calculateCumulativeAnalytics E u b bn bd sid ts qrs now).totalDomainCitations)
    (htop : 0 < top.brandMentions ∨ 0 < top.domainCitations)
    (htwo : 1 < ((top :: rest).filter (fun p => decide (tieCond top p))).length) :
    (calculateCumulativeAnalytics E u b bn bd sid ts qrs now).insights.topProviders =
      ((top :: rest).filter (fun p => decide (tieCond top p))).map (·.provider) ∧
    (calculateCumulativeAnalytics E u b bn bd sid ts qrs now).insights.topPerformingProvider =
      jsJoin " & " (((top :: rest).filter (fun p => decide (tieCond top p))).map (·.provider)) ∧
    ∀ p ∈ providerRankings (accumStats E bn bd qrs).stats, tieCond top p →
      p.provider ∈ (calculateCumulativeAnalytics E u b bn bd sid ts qrs now).insights.topProviders := by
  have e1 : (calculateCumulativeAnalytics E u b bn bd sid ts qrs now).insights.topPerformingProvider =
      (topSelection (accumStats E bn bd qrs).totalBrandMentions
        (accumStats E bn bd qrs).totalDomainCitations
        (providerRankings (accumStats E bn bd qrs).stats)).1 := rfl
  have e2 : (calculateCumulativeAnalytics E u b bn bd sid ts qrs now).insights.topProviders =
      (topSelection (accumStats E bn bd qrs).totalBrandMentions
        (accumStats E bn bd qrs).totalDomainCitations
        (providerRankings (accumStats E bn bd qrs).stats)).2 := rfl
  have hsel := topSelection_tie (accumStats E bn bd qrs).totalBrandMentions
    (accumStats E bn bd qrs).totalDomainCitations top rest hperf htop htwo
  have g2 : (calculateCumulativeAnalytics E u b bn bd sid ts qrs now).insights.topProviders =
      ((top :: rest).filter (fun p => decide (tieCond top p))).map (·.provider) := by
    rw [e2, hr, hsel]
  refine ⟨g2, ?_, ?_⟩
  · rw [e1, hr, hsel]
  · intro p hp hcond
    rw [hr] at hp
    rw [g2]
    exact List.mem_map.mpr ⟨p, List.mem_filter.mpr ⟨hp, decide_eq_true hcond⟩, rfl⟩

/-- Witness for C3 (amended): the tie scenario, with both providers at
three brand mentions and a domain-citation ratio of one half, yields
both providers in `topProviders` and the joined display name. -/
theorem claim_C3_witness :
    (calculateCumulativeAnalytics exTie "u" "b" "acme" "acme.com" "sid" "ts" [qrTie] 0).insights.topProviders =
      ["chatgpt", "perplexity"] ∧
    (calculateCumulativeAnalytics exTie "u" "b" "acme" "acme.com" "sid" "ts" [qrTie] 0).insights.topPerformingProvider =
      "chatgpt & perplexity" := by
  have t1 : tieCond rkTieC rkTieC := by
    refine ⟨rfl, ?_, Or.inl (by norm_num [rkTieC])⟩
    rw [sub_self, abs_zero]
    norm_num
  have t2 : tieCond rkTieC rkTieP := by
    refine ⟨rfl, ?_, Or.inl (by norm_num [rkTieP])⟩
    show |rkTieP.domainCitationsRatio - rkTieC.domainCitationsRatio| < 1/1000
    simp only [rkTieP, rkTieC]
    rw [sub_self, abs_zero]
    norm_num
  have hfil : ((rkTieC :: [rkTieP]).filter (fun p => decide (tieCond rkTieC p))) = [rkTieC, rkTieP] := by
    simp [List.filter_cons, decide_eq_true t1, decide_eq_true t2]
  have hp : 0 < (calculateCumulativeAnalytics exTie "u" "b" "acme" "acme.com" "sid" "ts" [qrTie] 0).totalBrandMentions := by
    rw [show (calculateCumulativeAnalytics exTie "u" "b" "acme" "acme.com" "sid" "ts" [qrTie] 0).totalBrandMentions =
      (accumStats exTie "acme" "acme.com" [qrTie]).totalBrandMentions from rfl, statsTie_eq]
    norm_num
  have htwo : 1 < ((rkTieC :: [rkTieP]).filter (fun p => decide (tieCond rkTieC p))).length := by
    rw [hfil]
    norm_num
  have hc := claim_C3_amended exTie "u" "b" "acme" "acme.com" "sid" "ts" [qrTie] 0 rkTieC [rkTieP]
    rankTie_eq (Or.inl hp) (Or.inl (by norm_num [rkTieC])) htwo
  constructor
  · rw [hc.1, hfil]
    rfl
  · rw [hc.2.1, hfil]
    rfl

/-! ## C7 -/

/-- C7: a request naming N providers yields exactly N result entries,
computed independently per requested name; an unknown name gives the
immediate "Provider not found" error entry with zero response time and
cost, a throwing adapter gives an error entry carrying the thrown
message, and an answering adapter contributes its response unchanged.
The embedding is a total function, so the call cannot throw. -/
theorem claim_C7 (providers : List (String × Adapter)) (request : APIRequest) (now : ℤ)
    (h : request.providers ≠ []) :
    (executeRequest providers request now).results.length = request.providers.length ∧
    ∀ i, ∀ hi : i < request.providers.length,
      (lookupProvider providers request.providers[i] = none →
        (executeRequest providers request now).results[i]? =
          some { providerId := request.providers[i], requestId := request.id,
                 status := "error", data := none, error := some "Provider not found",
                 responseTime := 0, cost := 0, timestamp := now }) ∧
      (∀ ad msg, lookupProvider providers request.providers[i] = some ad →
        ad.execute (transformRequestForProvider request ad.name) = .error msg →
        (executeRequest providers request now).results[i]? =
          some { providerId := request.providers[i], requestId := request.id,
                 status := "error", data := none, error := some msg,
                 responseTime := 0, cost := 0, timestamp := now }) ∧
      (∀ ad r, lookupProvider providers request.providers[i] = some ad →
        ad.execute (transformRequestForProvider request ad.name) = .ok r →
        (executeRequest providers request now).results[i]? = some r) := by
  have hpos : 0 < request.providers.length := List.length_pos.mpr h
  have e : (executeRequest providers request now).results =
      request.providers.map (runProvider providers request now) := by
    show (if 0 < request.providers.length then request.providers
      else providers.map (·.1)).map (runProvider providers request now) = _
    rw [if_pos hpos]
  refine ⟨by rw [e, List.length_map], ?_⟩
  intro i hi
  have hv : (executeRequest providers request now).results[i]? =
      some (runProvider providers request now request.providers[i]) := by
    rw [e, List.getElem?_map, List.getElem?_eq_getElem hi]
    rfl
  refine ⟨?_, ?_, ?_⟩
  · intro hnone
    rw [hv]
    simp only [runProvider, hnone]
    rfl
  · intro ad msg hl hex
    rw [hv]
    simp only [runProvider, hl, hex]
    rfl
  · intro ad r hl hex
    rw [hv]
    simp only [runProvider, hl, hex]

/-- Witness for C7: three requested providers, one answering, one
unknown, one throwing, give three entries with the expected statuses
and error messages. -/
theorem claim_C7_witness :
    request7.providers ≠ [] ∧
    (executeRequest registry7 request7 0).results.length = 3 ∧
    (executeRequest registry7 request7 0).results.map (·.status) = ["success", "error", "error"] ∧
    (executeRequest registry7 request7 0).results.map (·.error) =
      [none, some "Provider not found", some "boom"] :=
  ⟨by decide, (claim_C7 registry7 request7 0 (by decide)).1, by decide, by decide⟩

/-! ## C9 -/

/-- C9 counterexample: with an empty processing session id shared by the
stored entry and the whole new batch, the update appends instead of
replacing (the code treats a falsy session id as no session), so the
previously stored same-session entry survives.  This falsifies the
claim as stated. -/
theorem claim_C9_counterexample :
    storedOld.processingSessionId = storedNew.processingSessionId ∧
    computeUpdatedResults (fun _ => 0) [storedOld] [storedNew] = [storedOld, storedNew] ∧
    storedOld ∈ computeUpdatedResults (fun _ => 0) [storedOld] [storedNew] ∧
    storedOld ≠ truncateStored storedNew := by
  refine ⟨by decide, by decide, by decide, by decide⟩

/-- C9 (amended): for a non-empty batch sharing one non-empty
processing session id, every stored entry carrying that session id
comes from the new batch (previous same-session entries are removed),
the stored array holds at most 50 entries, and it is ordered
most-recent-first by date. -/
theorem claim_C9_amended (parseDate : String → ℤ) (existing new_ : List StoredQueryResult)
    (s : String) (h1 : new_ ≠ []) (h2 : ∀ r ∈ new_, r.processingSessionId = s)
    (h3 : s ≠ "") :
    (∀ r ∈ computeUpdatedResults parseDate existing new_, r.processingSessionId = s →
      ∃ q ∈ new_, r = truncateStored q) ∧
    (computeUpdatedResults parseDate existing new_).length ≤ 50 ∧
    List.Chain' (fun a b => parseDate b.date ≤ parseDate a.date)
      (computeUpdatedResults parseDate existing new_) := by
  cases new_ with
  | nil => exact absurd rfl h1
  | cons h0 rest =>
    have hsid : h0.processingSessionId = s := h2 h0 (List.mem_cons_self h0 rest)
    have e : computeUpdatedResults parseDate existing (h0 :: rest) =
        ((List.insertionSort (fun a b => dateDescCmp parseDate a b ≤ 0)
          ((existing.filter (fun r => r.processingSessionId ≠ h0.processingSessionId)) ++
            (h0 :: rest))).take MAX_STORED_RESULTS).map truncateStored := by
      show ((List.insertionSort _
        ((if h0.processingSessionId ≠ "" then
          existing.filter (fun r => r.processingSessionId ≠ h0.processingSessionId)
         else existing) ++ (h0 :: rest))).take MAX_STORED_RESULTS).map truncateStored = _
      rw [if_pos (by rw [hsid]; exact h3)]
    refine ⟨?_, ?_, ?_⟩
    · intro r hr hrs
      rw [e] at hr
      rcases List.mem_map.mp hr with ⟨q, hq, rfl⟩
      have hq2 : q ∈ (existing.filter (fun r => r.processingSessionId ≠ h0.processingSessionId)) ++
          (h0 :: rest) :=
        (List.perm_insertionSort _ _).mem_iff.mp (List.mem_of_mem_take hq)
      rcases List.mem_append.mp hq2 with hq3 | hq3
      · exfalso
        have hne : q.processingSessionId ≠ h0.processingSessionId := by
          have := (List.mem_filter.mp hq3).2
          simpa using this
        have hpres : (truncateStored q).processingSessionId = q.processingSessionId := rfl
        rw [hpres] at hrs
        rw [hsid] at hne
        exact hne hrs
      · exact ⟨q, hq3, rfl⟩
    · rw [e, List.length_map]
      have := List.length_take MAX_STORED_RESULTS
        (List.insertionSort (fun a b => dateDescCmp parseDate a b ≤ 0)
          ((existing.filter (fun r => r.processingSessionId ≠ h0.processingSessionId)) ++
            (h0 :: rest)))
      rw [this]
      exact min_le_left _ _
    · rw [e]
      have hch := chain'_insertionSort (fun a b => dateDescCmp parseDate a b ≤ 0)
        (by
          intro a b hab
          unfold dateDescCmp at *
          omega)
        ((existing.filter (fun r => r.processingSessionId ≠ h0.processingSessionId)) ++
          (h0 :: rest))
      have hch2 := hch.take MAX_STORED_RESULTS
      rw [List.chain'_map]
      refine hch2.imp ?_
      intro a b hab
      show parseDate (truncateStored b).date ≤ parseDate (truncateStored a).date
      have ea : (truncateStored a).date = a.date := rfl
      have eb : (truncateStored b).date = b.date := rfl
      rw [ea, eb]
      unfold dateDescCmp at hab
      omega

/-- Witness for C9 (amended): a one-entry batch with session id "s2"
replacing a history holding a different session. -/
theorem claim_C9_amended_witness :
    ([storedN1] ≠ []) ∧
    (∀ r ∈ computeUpdatedResults (fun _ => 0) [storedE1] [storedN1],
      r.processingSessionId = "s2" → ∃ q ∈ [storedN1], r = truncateStored q) ∧
    (computeUpdatedResults (fun _ => 0) [storedE1] [storedN1]).length ≤ 50 :=
  ⟨by decide,
   (claim_C9_amended (fun _ => 0) [storedE1] [storedN1] "s2" (by decide) (by decide) (by decide)).1,
   (claim_C9_amended (fun _ => 0) [storedE1] [storedN1] "s2" (by decide) (by decide) (by decide)).2.1⟩

/-! ## C8 -/

theorem mem_dedupFirstAux (l : List String) :
    ∀ seen s, s ∈ dedupFirstAux seen l → s ∈ l := by
  induction l with
  | nil =>
    intro seen s h
    simp [dedupFirstAux] at h
  | cons x xs ih =>
    intro seen s h
    by_cases hx : x ∈ seen
    · rw [dedupFirstAux, if_pos hx] at h
      exact List.mem_cons_of_mem x (ih seen s h)
    · rw [dedupFirstAux, if_neg hx] at h
      rcases List.mem_cons.mp h with rfl | h2
      · exact List.mem_cons_self s xs
      · exact List.mem_cons_of_mem x (ih (x :: seen) s h2)

theorem numberedScan_shape (cs : List Char) :
    ∀ m ∈ numberedScan cs,
      ∃ ds : List Char, ds ≠ [] ∧ (∀ c ∈ ds, c.isDigit = true) ∧ m = '[' :: (ds ++ [']']) := by
  induction cs with
  | nil =>
    intro m hm
    simp [numberedScan] at hm
  | cons c rest ih =>
    intro m hm
    rw [numberedScan] at hm
    split at hm
    · split at hm
      next x xs heqt heqd =>
        rcases List.mem_cons.mp hm with rfl | h2
        · refine ⟨rest.takeWhile Char.isDigit, by rw [heqt]; simp, ?_, rfl⟩
          intro d hd
          exact List.mem_takeWhile_imp hd
        · exact ih m h2
      next heqt heqd => exact ih m hm
    · exact ih m hm

theorem urlScanFuel_shape (fuel : Nat) :
    ∀ cs, ∀ m ∈ urlScanFuel fuel cs,
      (∃ run : List Char, run ≠ [] ∧ m = httpsChars ++ run) ∨
      (∃ run : List Char, run ≠ [] ∧ m = httpChars ++ run) := by
  induction fuel with
  | zero =>
    intro cs m hm
    simp [urlScanFuel] at hm
  | succ n ih =>
    intro cs m hm
    cases cs with
    | nil => simp [urlScanFuel] at hm
    | cons c rest =>
      rw [urlScanFuel] at hm
      dsimp only at hm
      split at hm
      · split at hm
        · exact ih rest m hm
        next hrun =>
          rcases List.mem_cons.mp hm with rfl | h2
          · refine Or.inl ⟨((c :: rest).drop 8).takeWhile urlChar, ?_, rfl⟩
            intro hnil
            rw [hnil] at hrun
            exact hrun rfl
          · exact ih _ m h2
      · split at hm
        · split at hm
          · exact ih rest m hm
          next hrun =>
            rcases List.mem_cons.mp hm with rfl | h2
            · refine Or.inr ⟨((c :: rest).drop 7).takeWhile urlChar, ?_, rfl⟩
              intro hnil
              rw [hnil] at hrun
              exact hrun rfl
            · exact ih _ m h2
        · exact ih rest m hm

/-- C8 (amended): the Perplexity extractor is total (it cannot throw:
it is two regex passes and a dedup) and what it returns is exactly
bracketed numeric markers and raw http/https substrings; it performs no
URL-parse filtering, so the numeric markers are not discarded. -/
theorem claim_C8_amended (content : String) :
    ∀ s ∈ perplexityExtractCitations content, isNumberedMarker s ∨ isUrlShaped s := by
  intro s hs
  have hs2 := mem_dedupFirstAux _ _ s hs
  rcases List.mem_append.mp hs2 with h | h
  · rcases List.mem_map.mp h with ⟨m, hm, rfl⟩
    rcases numberedScan_shape _ m hm with ⟨ds, h1, h2, h3⟩
    exact Or.inl ⟨ds, h1, h2, by rw [show (String.mk m).data = m from rfl, h3]⟩
  · rcases List.mem_map.mp h with ⟨m, hm, rfl⟩
    rcases urlScanFuel_shape _ _ m hm with ⟨run, h1, h2⟩ | ⟨run, h1, h2⟩
    · exact Or.inr (Or.inl ⟨run, h1, by rw [show (String.mk m).data = m from rfl, h2]⟩)
    · exact Or.inr (Or.inr ⟨run, h1, by rw [show (String.mk m).data = m from rfl, h2]⟩)

/-- C8 counterexample: on the response text "See [1]" the Perplexity
extractor returns the bracket marker "[1]", which does not parse as a
URL, so extraction does not discard entries whose url fails to parse.
This falsifies the claim as stated. -/
theorem claim_C8_counterexample :
    perplexityExtractCitations "See [1]" = ["[1]"] ∧ urlParses "[1]" = false := by
  exact ⟨by decide, by decide⟩

/-- Witness for C8 (amended): the marker extracted from "See [1]" has
one of the two produced shapes. -/
theorem claim_C8_witness : isNumberedMarker "[1]" ∨ isUrlShaped "[1]" :=
  claim_C8_amended "See [1]" "[1]" (by decide)

/-! ## C10 -/

theorem statsVisA_eq : accumStats exNone "acme" "acme.com" [qrVisA] =
    { stats := {
        chatgpt := { queriesProcessed := 1, brandMentions := 1, citations := 0, domainCitations := 0, totalResponseTime := 0 }
        google := initPStat
        perplexity := initPStat }
      totalBrandMentions := 1, totalCitations := 0, totalDomainCitations := 0
      totalProvidersWithBrandMentions := 1, totalProviders := 1 } := by
  decide

theorem statsVisB_eq : accumStats exNone "acme" "acme.com" [qrVisB] =
    { stats := {
        chatgpt := { queriesProcessed := 1, brandMentions := 1, citations := 0, domainCitations := 0, totalResponseTime := 0 }
        google := { queriesProcessed := 1, brandMentions := 0, citations := 0, domainCitations := 0, totalResponseTime := 0 }
        perplexity := initPStat }
      totalBrandMentions := 1, totalCitations := 0, totalDomainCitations := 0
      totalProvidersWithBrandMentions := 1, totalProviders := 2 } := by
  decide

/-- C10: a chatgpt or perplexity entry whose response text is empty is
analysed exactly as if the provider were absent, while a present
googleAI entry with an empty or absent overview still yields a google
result with zero mentions; concretely, adding an empty Google AI
overview to a query whose chatgpt response mentions the brand lowers
the visibility score from 100 to 50. -/
theorem claim_C10 :
    (∀ bn bd : String, ∀ cc : Option (List Citation), ∀ g : Option GoogleInput,
      ∀ p : Option ProviderInput,
      analyzeBrandMentions bn bd
        { chatgpt := some { response := "", citations := cc }, googleAI := g, perplexity := p } =
      analyzeBrandMentions bn bd { chatgpt := none, googleAI := g, perplexity := p }) ∧
    (∀ bn bd : String, ∀ c : Option ProviderInput, ∀ g : Option GoogleInput,
      ∀ pc : Option (List Citation),
      analyzeBrandMentions bn bd
        { chatgpt := c, googleAI := g, perplexity := some { response := "", citations := pc } } =
      analyzeBrandMentions bn bd { chatgpt := c, googleAI := g, perplexity := none }) ∧
    (∀ bn bd : String, ∀ c p : Option ProviderInput, ∀ ov : Option String,
      ∀ cits : Option (List Citation), (ov = none ∨ ov = some "") →
      (analyzeBrandMentions bn bd
        { chatgpt := c, googleAI := some { aiOverview := ov, citations := cits },
          perplexity := p }).results.google =
        some { provider := "google", brandMentioned := false, domainCited := false
               citationCount := (cits.getD []).length, citations := cits.getD []
               brandMentionCount := 0, domainCitationCount := countDomainCitations (cits.getD []) bd }) ∧
    ((calculateCumulativeAnalytics exNone "u" "b" "acme" "acme.com" "sid" "ts" [qrVisA] 0).brandVisibilityScore = 100 ∧
     (calculateCumulativeAnalytics exNone "u" "b" "acme" "acme.com" "sid" "ts" [qrVisB] 0).brandVisibilityScore = 50) := by
  refine ⟨?_, ?_, ?_, ?_, ?_⟩
  · intro bn bd cc g p
    simp [analyzeBrandMentions, analyzeTextProvider]
  · intro bn bd c g pc
    simp [analyzeBrandMentions, analyzeTextProvider]
  · intro bn bd c p ov cits hov
    rcases hov with rfl | rfl <;>
      simp [analyzeBrandMentions, analyzeGoogleProvider, isBrandMentioned, isDomainCited,
        countBrandMentions]
  · rw [show (calculateCumulativeAnalytics exNone "u" "b" "acme" "acme.com" "sid" "ts" [qrVisA] 0).brandVisibilityScore =
      round2 (if 0 < (accumStats exNone "acme" "acme.com" [qrVisA]).totalProviders then
        ((accumStats exNone "acme" "acme.com" [qrVisA]).totalProvidersWithBrandMentions : ℚ) /
          ((accumStats exNone "acme" "acme.com" [qrVisA]).totalProviders : ℚ) * 100
      else 0) from rfl, statsVisA_eq]
    norm_num [round2, jsRound]
  · rw [show (calculateCumulativeAnalytics exNone "u" "b" "acme" "acme.com" "sid" "ts" [qrVisB] 0).brandVisibilityScore =
      round2 (if 0 < (accumStats exNone "acme" "acme.com" [qrVisB]).totalProviders then
        ((accumStats exNone "acme" "acme.com" [qrVisB]).totalProvidersWithBrandMentions : ℚ) /
          ((accumStats exNone "acme" "acme.com" [qrVisB]).totalProviders : ℚ) * 100
      else 0) from rfl, statsVisB_eq]
    norm_num [round2, jsRound]

/-- Witness for C10: the empty-response and empty-overview cases at the
concrete brand "acme". -/
theorem claim_C10_witness :
    analyzeBrandMentions "acme" "acme.com"
      { chatgpt := some { response := "", citations := none }, googleAI := none, perplexity := none } =
      analyzeBrandMentions "acme" "acme.com"
        { chatgpt := none, googleAI := none, perplexity := none } ∧
    (analyzeBrandMentions "acme" "acme.com"
      { chatgpt := none, googleAI := some { aiOverview := some "", citations := none },
        perplexity := none }).results.google =
      some { provider := "google", brandMentioned := false, domainCited := false
             citationCount := 0, citations := [], brandMentionCount := 0
             domainCitationCount := 0 } :=
  ⟨claim_C10.1 "acme" "acme.com" none none none,
   claim_C10.2.2.1 "acme" "acme.com" none none (some "") none (Or.inr rfl)⟩

end AIMonitor
